import Mathlib

/-!
Verification of the beehive MLOps pipeline core

Shallow embedding of the core components of the repository:

* `OutlierRemover` (src/data/outlier_remover/component.py) — the
  Group-Statistic Row Filter,
* the feature transformers (src/data/preprocessor/feature_store.py),
* `FeaturesPreprocessor` (src/data/preprocessor/component.py) — the
  Pipeline Orchestrator, with `_create_transformer_from_config` as the
  Dynamic Step Resolver,
* `FullPipelinePyFunc` (src/models/pyfunc_wrapper.py) — the
  Full-Pipeline Composer.

Tables (pandas DataFrames) are modelled as a list of column names
together with rows that carry a stable integer index label (the row
identifier) and one cell value per column.  Machine floats are modelled
as rationals; pandas NaN is the explicit value `Val.na`.  Python
exceptions are modelled by the `Except PyErr` monad, distinguishing
exception kinds (and the payload that names e.g. missing columns).
-/

namespace MLOps

abbrev ColName := String

/-- A pandas cell value.  `int`/`float` mirror the int64/float64 dtypes
(floats as exact rationals; float rounding is out of scope for every
claim considered here), `na` is NaN / missing. -/
inductive Val where
  | int (n : ℤ)
  | float (q : ℚ)
  | str (s : String)
  | na
deriving DecidableEq, Repr

/-- Numeric view of a cell: NaN and strings have no numeric value.
NaN comparisons in pandas are always `False`, which the `Option`
matches below reproduce. -/
def Val.toQ : Val → Option ℚ
  | .int n => some (n : ℚ)
  | .float q => some q
  | .str _ => none
  | .na => none

/-- A pandas DataFrame: named columns and rows `(index label, cells)`.
Cells are positional, aligned with `cols`. -/
structure DataFrame where
  cols : List ColName
  rows : List (Nat × List Val)
deriving DecidableEq, Repr

/-- The index (row identifiers) of a frame, in row order. -/
def DataFrame.ids (df : DataFrame) : List Nat := df.rows.map Prod.fst

/-- Rectangularity: every row has one cell per column (always true of a
real pandas frame; our row lists could be ragged, so it is a stated
invariant). -/
def DataFrame.WF (df : DataFrame) : Prop :=
  ∀ r ∈ df.rows, r.2.length = df.cols.length

instance (df : DataFrame) : Decidable df.WF :=
  List.decidableBAll _ _

/-- Cell of a row at a named column (first matching column, as pandas
label lookup on a frame without duplicate labels). -/
def cellVal (cols : List ColName) (c : ColName) (vs : List Val) : Val :=
  match cols.findIdx? (fun x => decide (x = c)) with
  | some i => vs.getD i .na
  | none => .na

/-- All values of one column, in row order. -/
def colValues (df : DataFrame) (c : ColName) : List Val :=
  df.rows.map (fun r => cellVal df.cols c r.2)

/-- Python exception kinds raised by the core, with the data their
messages carry.  `schemaError`/`collisionError` are the two shapes of
`ValueError` raised by `FeatureTransformer._validate_columns` and the
overwrite guards; `schemaError` carries the class name and the missing
columns the message lists. -/
inductive PyErr where
  | schemaError (cls : String) (missing : List ColName)
  | collisionError (cls : String) (cols : List ColName)
  | valueError (msg : String)
  | keyError (msg : String)
  | importError (msg : String)
  | typeError (msg : String)
  | notFittedError (msg : String)
  | runtimeError (msg : String)
  | attributeError (msg : String)
deriving DecidableEq, Repr

instance {ε α : Type} [DecidableEq ε] [DecidableEq α] : DecidableEq (Except ε α)
  | .ok a, .ok b => if h : a = b then .isTrue (by rw [h]) else .isFalse (by simp [h])
  | .ok _, .error _ => .isFalse (by simp)
  | .error _, .ok _ => .isFalse (by simp)
  | .error a, .error b => if h : a = b then .isTrue (by rw [h]) else .isFalse (by simp [h])

/-! ## Group-Statistic Row Filter (`OutlierRemover`) -/

/-- Model of `OutlierRemoverConfig` (src/data/outlier_remover/schema.py). -/
structure OutlierRemoverConfig where
  group_by_column : ColName
  temperature_column : ColName
  max_temp_threshold : ℚ
  min_temp_threshold : ℚ
deriving DecidableEq, Repr

/-- The learned `_group_means` series: group-key value → mean of the
temperature column over that group (`none` when the mean of the group is
NaN, i.e. the group had no numeric temperature values). -/
abbrev GroupMeans := List (Val × Option ℚ)

/-- Model of `OutlierRemover`: `group_means = none` models the `_group_means`
attribute being absent (unfitted). -/
structure OutlierRemover where
  config : OutlierRemoverConfig
  group_means : Option GroupMeans := none
deriving DecidableEq, Repr

/-- Distinct group keys of `df.groupby(g)`, NaN keys excluded (pandas
groupby drops NaN group keys). -/
def groupKeys (df : DataFrame) (g : ColName) : List Val :=
  ((colValues df g).filter (fun v => decide (v ≠ .na))).dedup

/-- Mean of a list of rationals; `none` models the NaN mean of an empty
list (pandas `.mean()` skips non-numeric/NaN entries first). -/
def meanOpt (qs : List ℚ) : Option ℚ :=
  if qs.isEmpty then none else some (qs.sum / qs.length)

/-- Model of `OutlierRemover.fit`: validates the two required columns, then
stores the per-group mean of the temperature column. -/
def OutlierRemover.fit (r : OutlierRemover) (X : DataFrame) :
    Except PyErr OutlierRemover :=
  let required := [r.config.group_by_column, r.config.temperature_column]
  if required.all (fun c => X.cols.contains c) then
    let gm : GroupMeans := (groupKeys X r.config.group_by_column).map (fun k =>
      (k, meanOpt
        (((X.rows.filter
              (fun row => decide (cellVal X.cols r.config.group_by_column row.2 = k))).map
            (fun row => cellVal X.cols r.config.temperature_column row.2)).filterMap Val.toQ)))
    .ok { r with group_means := some gm }
  else
    .error (.valueError "Input DataFrame must contain columns")

/-- Left-join lookup of the group key of a row in the learned means.  A NaN
key never matches (pandas NaN does not align in a merge); a key absent
from the fitted means yields a missing statistic. -/
def lookupMean (gm : GroupMeans) (k : Val) : Option ℚ :=
  match k with
  | .na => none
  | _ =>
    match gm.find? (fun p => decide (p.1 = k)) with
    | some p => p.2
    | none => none

/-- The merged statistic cell: a present mean is a float, a missing one
is NaN. -/
def optMeanToVal : Option ℚ → Val
  | some q => .float q
  | none => .na

/-- The temporary statistic column name: the text _temp_mean_ followed by
the group column name. -/
def mkMeanColName (g : ColName) : ColName := "_temp_mean_" ++ g

/-- The merge step of `OutlierRemover.transform`: left-join the renamed
means series onto `X` by the group column, preserving the left index. -/
def addMeanCol (gm : GroupMeans) (g : ColName) (X : DataFrame) : DataFrame :=
  ⟨X.cols ++ [mkMeanColName g],
   X.rows.map (fun row =>
     (row.1, row.2 ++ [optMeanToVal (lookupMean gm (cellVal X.cols g row.2))]))⟩

/-- The filter mask `(mean >= min_threshold) & (mean <= max_threshold)`;
a NaN statistic compares `False` on both sides and fails the mask. -/
def meanMask (cfg : OutlierRemoverConfig) (cols : List ColName)
    (row : Nat × List Val) : Bool :=
  match (cellVal cols (mkMeanColName cfg.group_by_column) row.2).toQ with
  | some q => decide (cfg.min_temp_threshold ≤ q ∧ q ≤ cfg.max_temp_threshold)
  | none => false

/-- Pandas `df.drop(columns=[c])`: drops the (first) column labelled `c`,
`KeyError` if absent. -/
def dropColumn (df : DataFrame) (c : ColName) : Except PyErr DataFrame :=
  match df.cols.findIdx? (fun x => decide (x = c)) with
  | none => .error (.keyError c)
  | some i => .ok ⟨df.cols.eraseIdx i, df.rows.map (fun r => (r.1, r.2.eraseIdx i))⟩

/-- A pandas Series of labels: `(index label, value)` in order. -/
abbrev Labels := List (Nat × Val)

/-- Pandas `y.loc[ids]`: for each requested label, every matching entry of `y`
in order; `KeyError` when a label has no match. -/
def locSelect (ys : Labels) : List Nat → Except PyErr Labels
  | [] => .ok []
  | i :: rest =>
    let hits := ys.filter (fun p => decide (p.1 = i))
    if hits.isEmpty then .error (.keyError (toString i))
    else
      match locSelect ys rest with
      | .ok r => .ok (hits ++ r)
      | .error e => .error e

/-- Model of `OutlierRemover.transform`: merge the learned means in as a
temporary column, keep rows whose statistic lies in the inclusive
threshold range, drop the temporary column, and re-index the optional
labels by the surviving identifiers.  The merge raises `KeyError` when
the group column is absent; when the temporary name already exists in
`X`, pandas suffixes both colliding columns and the subsequent drop of
the unsuffixed name raises `KeyError`. -/
def OutlierRemover.transform (r : OutlierRemover) (X : DataFrame)
    (y : Option Labels) : Except PyErr (DataFrame × Option Labels) :=
  match r.group_means with
  | none => .error (.notFittedError "This DataCleaner instance is not fitted yet.")
  | some gm =>
    if r.config.group_by_column ∈ X.cols then
      if mkMeanColName r.config.group_by_column ∈ X.cols then
        .error (.keyError (mkMeanColName r.config.group_by_column))
      else
        match dropColumn
            ⟨(addMeanCol gm r.config.group_by_column X).cols,
             (addMeanCol gm r.config.group_by_column X).rows.filter
               (meanMask r.config (addMeanCol gm r.config.group_by_column X).cols)⟩
            (mkMeanColName r.config.group_by_column) with
        | .error e => .error e
        | .ok Xf =>
          match y with
          | none => .ok (Xf, none)
          | some ys =>
            match locSelect ys Xf.ids with
            | .ok ysel => .ok (Xf, some ysel)
            | .error e => .error e
    else .error (.keyError r.config.group_by_column)

/-- Model of `OutlierRemover.fit_transform`. -/
def OutlierRemover.fit_transform (r : OutlierRemover) (X : DataFrame)
    (y : Option Labels) : Except PyErr (DataFrame × Option Labels) :=
  match r.fit X with
  | .ok r' => r'.transform X y
  | .error e => .error e

/-! ## Feature transformers (src/data/preprocessor/feature_store.py) -/

/-- A constructor parameter value, as supplied in the `params` mapping of a step: a string, a number, a list of column names, or the aggregation
dict of `GroupedAggregator`. -/
inductive PVal where
  | s (v : String)
  | f (v : ℚ)
  | ls (v : List String)
  | agg (v : List (String × List String))
deriving DecidableEq, Repr

abbrev Params := List (String × PVal)

def Params.get (ps : Params) (k : String) : Option PVal :=
  (ps.find? (fun p => decide (p.1 = k))).map Prod.snd

def Params.names (ps : Params) : List String := ps.map Prod.fst

/-- The six concrete `FeatureTransformer` subclasses. -/
inductive TClass where
  | intToFloatConverter
  | meanImputer
  | groupedAggregator
  | columnSubtractor
  | absoluteDifference
  | thresholdBinarizer
deriving DecidableEq, Repr

def TClass.name : TClass → String
  | .intToFloatConverter => "IntToFloatConverter"
  | .meanImputer => "MeanImputer"
  | .groupedAggregator => "GroupedAggregator"
  | .columnSubtractor => "ColumnSubtractor"
  | .absoluteDifference => "AbsoluteDifference"
  | .thresholdBinarizer => "ThresholdBinarizer"

/-- A transformer instance: constructor arguments plus learned state
(`columns_to_convert_`, `imputation_values_`, `agg_df_`), exactly the
attributes the Python classes carry. -/
inductive Transformer where
  | intToFloatConverter (columns : Option (List ColName))
      (columns_to_convert : List ColName)
  | meanImputer (input_cols : List ColName)
      (imputation_values : List (ColName × Val))
  | groupedAggregator (input_cols : List ColName) (groupby_col : ColName)
      (aggregations : List (ColName × List String)) (output_cols : List ColName)
      (agg_df : Option (List (Val × List Val)))
  | columnSubtractor (input_cols : List ColName) (output_col : ColName)
      (col_a col_b : ColName)
  | absoluteDifference (input_cols : List ColName) (output_col : ColName)
      (col_a col_b : ColName)
  | thresholdBinarizer (input_col : ColName) (output_col : ColName)
      (threshold : ℚ)
deriving DecidableEq, Repr

def Transformer.tclass : Transformer → TClass
  | .intToFloatConverter .. => .intToFloatConverter
  | .meanImputer .. => .meanImputer
  | .groupedAggregator .. => .groupedAggregator
  | .columnSubtractor .. => .columnSubtractor
  | .absoluteDifference .. => .absoluteDifference
  | .thresholdBinarizer .. => .thresholdBinarizer

/-- The set difference `set(required) - set(df.columns)`, the columns the `SchemaError`
message lists. -/
def missingCols (required : List ColName) (cols : List ColName) : List ColName :=
  (required.filter (fun c => decide (c ∉ cols))).dedup

/-- Model of `FeatureTransformer._validate_columns`. -/
def validateColumns (cls : String) (df : DataFrame) (required : List ColName) :
    Except PyErr Unit :=
  if missingCols required df.cols = [] then .ok ()
  else .error (.schemaError cls (missingCols required df.cols))

def Val.isInt : Val → Bool
  | .int _ => true
  | _ => false

/-- Pandas `select_dtypes` over the integer dtypes: the columns of
integer dtype, i.e. the (nonempty-frame) columns all of whose values
are int64. -/
def intColumns (X : DataFrame) : List ColName :=
  X.cols.filter (fun c => !X.rows.isEmpty && (colValues X c).all Val.isInt)

/-- The numeric value of a run of decimal digits (48 is the code of the
zero digit); fails on any non-digit character, and gives 0 on the empty
run, which the caller guards. -/
def digitsToNat (cs : List Char) : Option ℕ :=
  cs.foldlM (fun n c => if c.isDigit then some (n * 10 + (c.toNat - 48)) else none) 0

/-- The Python float conversion used by astype on a string cell, for
the plain decimal forms: optional sign, integer digits, optional
fractional digits, at least one digit overall.  Exponent, infinity and
whitespace forms are not produced by this pipeline and are treated as
unconvertible. -/
def parseFloat (s : String) : Option ℚ :=
  let core : List Char → Option ℚ := fun cs =>
    match cs.span (fun c => decide (c ≠ '.')) with
    | (ip, []) =>
      if ip.isEmpty then none
      else (digitsToNat ip).map (fun n => (n : ℚ))
    | (ip, _ :: fp) =>
      if fp.contains '.' then none
      else if ip.isEmpty && fp.isEmpty then none
      else
        match digitsToNat ip, digitsToNat fp with
        | some i, some f => some ((i : ℚ) + (f : ℚ) / ((10 : ℚ) ^ fp.length))
        | _, _ => none
  match s.data with
  | '-' :: rest => (core rest).map (fun q => -q)
  | '+' :: rest => core rest
  | cs => core cs

/-- Pandas `astype(float64)` on one cell: int64 and float64 cast
losslessly, NaN stays NaN, and a string converts when it parses as a
number — otherwise astype raises `ValueError`. -/
def castCell : Val → Except PyErr Val
  | .int n => .ok (.float (n : ℚ))
  | .float q => .ok (.float q)
  | .na => .ok .na
  | .str st =>
    match parseFloat st with
    | some q => .ok (.float q)
    | none => .error (.valueError ("could not convert string to float: " ++ st))

/-- Cast every cell of the column at index `i`, propagating the first
conversion error in row order. -/
def castColumnRows (i : ℕ) : List (Nat × List Val) →
    Except PyErr (List (Nat × List Val))
  | [] => .ok []
  | r :: rest =>
    match castCell (r.2.getD i .na) with
    | .error e => .error e
    | .ok v =>
      match castColumnRows i rest with
      | .error e => .error e
      | .ok rs => .ok ((r.1, r.2.set i v) :: rs)

/-- The per-column astype assignment of the conversion loop. -/
def castColumn (df : DataFrame) (c : ColName) : Except PyErr DataFrame :=
  match df.cols.findIdx? (fun x => decide (x = c)) with
  | none => .ok df
  | some i =>
    match castColumnRows i df.rows with
    | .error e => .error e
    | .ok rs => .ok ⟨df.cols, rs⟩

/-- The conversion loop of `IntToFloatConverter.transform`: cast each
listed column in turn, silently skipping the ones that are absent from
the frame. -/
def castColumns : DataFrame → List ColName → Except PyErr DataFrame
  | df, [] => .ok df
  | df, c :: cs =>
    if c ∈ df.cols then
      match castColumn df c with
      | .error e => .error e
      | .ok df2 => castColumns df2 cs
    else castColumns df cs

/-- Pandas `fillna(imputation_values_)` on one row: NaN cells of columns in
the mapping take the learned value (itself possibly NaN). -/
def fillRow (cols : List ColName) (imp : List (ColName × Val)) (vs : List Val) :
    List Val :=
  (cols.zip vs).map (fun cv =>
    if cv.2 = .na then
      match imp.find? (fun p => decide (p.1 = cv.1)) with
      | some p => p.2
      | none => .na
    else cv.2)

/-- Elementwise `col_a - col_b`: int64 − int64 stays int64, other
numeric combinations give float, NaN propagates (string operands are
out of scope and modelled as NaN). -/
def subVal : Val → Val → Val
  | .int a, .int b => .int (a - b)
  | v, w =>
    match v.toQ, w.toQ with
    | some a, some b => .float (a - b)
    | _, _ => .na

/-- Elementwise `abs`. -/
def absVal : Val → Val
  | .int a => .int |a|
  | .float q => .float |q|
  | _ => .na

/-- The binarizer cell `(X[input_col] > threshold).astype(int)`: NaN compares `False`,
giving 0 (string cells are out of scope and modelled as 0). -/
def binarizeVal (th : ℚ) (v : Val) : Val :=
  match v.toQ with
  | some q => if th < q then .int 1 else .int 0
  | none => .int 0

/-- Append one derived column. -/
def appendColumn (df : DataFrame) (c : ColName) (f : Nat × List Val → Val) :
    DataFrame :=
  ⟨df.cols ++ [c], df.rows.map (fun r => (r.1, r.2 ++ [f r]))⟩

/-- One aggregation function over the numeric values of a group
(the pandas aggregations the configs can name; other names are out of
scope and modelled as NaN). -/
def evalAgg (fn : String) (qs : List ℚ) : Val :=
  if fn = "mean" then optMeanToVal (meanOpt qs)
  else if fn = "sum" then .float qs.sum
  else if fn = "count" then .int qs.length
  else if fn = "min" then optMeanToVal qs.min?
  else if fn = "max" then optMeanToVal qs.max?
  else .na

/-- The aggregation `X.groupby(groupby_col)[agg_cols].agg(aggregations)`: one row per
(non-NaN) group key, one value per (column, function) pair in dict
order. -/
def fitAggTable (X : DataFrame) (g : ColName)
    (aggs : List (ColName × List String)) : List (Val × List Val) :=
  (groupKeys X g).map (fun k =>
    (k, (aggs.map (fun cf =>
      cf.2.map (fun fn =>
        evalAgg fn
          (((X.rows.filter
                (fun row => decide (cellVal X.cols g row.2 = k))).map
              (fun row => cellVal X.cols cf.1 row.2)).filterMap Val.toQ)))).flatten))

/-- The left-join of `transform` in `GroupedAggregator`: append the
aggregate row of the group, or NaN aggregates for an unseen (or NaN) group
key. -/
def appendAggCols (df : DataFrame) (g : ColName) (ocs : List ColName)
    (tbl : List (Val × List Val)) : DataFrame :=
  ⟨df.cols ++ ocs,
   df.rows.map (fun r =>
     (r.1, r.2 ++
       (match cellVal df.cols g r.2 with
        | .na => ocs.map (fun _ => Val.na)
        | k =>
          match tbl.find? (fun p => decide (p.1 = k)) with
          | some p => p.2
          | none => ocs.map (fun _ => Val.na))))⟩

/-- Model of `FeatureTransformer.fit` for each variant, returning the
fitted instance, that is, `self`. -/
def Transformer.fit (t : Transformer) (X : DataFrame) : Except PyErr Transformer :=
  match t with
  | .intToFloatConverter columns _ =>
    match columns with
    | some (c :: cs) =>
      -- `if self.columns:` — an explicit, nonempty list is validated and used
      match validateColumns "IntToFloatConverter" X (c :: cs) with
      | .ok _ => .ok (.intToFloatConverter (some (c :: cs)) (c :: cs))
      | .error e => .error e
    | _ =>
      -- `None` (or an empty list, which is falsy) auto-detects integer columns
      .ok (.intToFloatConverter columns (intColumns X))
  | .meanImputer ics _ =>
    match validateColumns "MeanImputer" X ics with
    | .ok _ =>
      .ok (.meanImputer ics (ics.map (fun c =>
        (c, optMeanToVal (meanOpt ((colValues X c).filterMap Val.toQ))))))
    | .error e => .error e
  | .groupedAggregator ics g aggs ocs _ =>
    match validateColumns "GroupedAggregator" X (ics ++ [g]) with
    | .ok _ =>
      -- `X.groupby(g)[agg_cols]` raises KeyError if an aggregation key
      -- column is absent; the rename to `output_cols` raises on a
      -- length mismatch
      if aggs.all (fun cf => decide (cf.1 ∈ X.cols)) then
        if (aggs.map (fun cf => cf.2.length)).sum = ocs.length then
          .ok (.groupedAggregator ics g aggs ocs (some (fitAggTable X g aggs)))
        else .error (.valueError "Length mismatch: renaming aggregate columns")
      else .error (.keyError "aggregation column not in frame")
    | .error e => .error e
  | .columnSubtractor ics oc ca cb =>
    match validateColumns "ColumnSubtractor" X ics with
    | .ok _ => .ok (.columnSubtractor ics oc ca cb)   -- stateless
    | .error e => .error e
  | .absoluteDifference ics oc ca cb =>
    match validateColumns "AbsoluteDifference" X ics with
    | .ok _ => .ok (.absoluteDifference ics oc ca cb)   -- stateless
    | .error e => .error e
  | .thresholdBinarizer ic oc th =>
    match validateColumns "ThresholdBinarizer" X [ic] with
    | .ok _ => .ok (.thresholdBinarizer ic oc th)   -- stateless
    | .error e => .error e

/-- Model of `FeatureTransformer.transform` for each variant. -/
def Transformer.transform (t : Transformer) (X : DataFrame) :
    Except PyErr DataFrame :=
  match t with
  | .intToFloatConverter _ ctc =>
    -- no column validation: casts only the identified columns that are
    -- still present, silently skipping absent ones (astype itself can
    -- still raise on an unconvertible present column)
    if ctc.isEmpty then .ok X else castColumns X ctc
  | .meanImputer _ imp =>
    -- no column validation: `fillna` with the learned means
    .ok ⟨X.cols, X.rows.map (fun r => (r.1, fillRow X.cols imp r.2))⟩
  | .groupedAggregator _ g _ ocs aggdf =>
    match validateColumns "GroupedAggregator" X [g] with
    | .error e => .error e
    | .ok _ =>
      if ocs.any (fun c => decide (c ∈ X.cols)) then
        .error (.collisionError "GroupedAggregator" ocs)
      else
        match aggdf with
        | none => .error (.typeError "can not merge DataFrame with None")
        | some tbl => .ok (appendAggCols X g ocs tbl)
  | .columnSubtractor ics oc ca cb =>
    match validateColumns "ColumnSubtractor" X ics with
    | .error e => .error e
    | .ok _ =>
      if oc ∈ X.cols then .error (.collisionError "ColumnSubtractor" [oc])
      else if ca ∉ X.cols then .error (.keyError ca)
      else if cb ∉ X.cols then .error (.keyError cb)
      else .ok (appendColumn X oc (fun r =>
        subVal (cellVal X.cols ca r.2) (cellVal X.cols cb r.2)))
  | .absoluteDifference ics oc ca cb =>
    match validateColumns "AbsoluteDifference" X ics with
    | .error e => .error e
    | .ok _ =>
      if oc ∈ X.cols then .error (.collisionError "AbsoluteDifference" [oc])
      else if ca ∉ X.cols then .error (.keyError ca)
      else if cb ∉ X.cols then .error (.keyError cb)
      else .ok (appendColumn X oc (fun r =>
        absVal (subVal (cellVal X.cols ca r.2) (cellVal X.cols cb r.2))))
  | .thresholdBinarizer ic oc th =>
    match validateColumns "ThresholdBinarizer" X [ic] with
    | .error e => .error e
    | .ok _ =>
      if oc ∈ X.cols then .error (.collisionError "ThresholdBinarizer" [oc])
      else .ok (appendColumn X oc (fun r =>
        binarizeVal th (cellVal X.cols ic r.2)))

/-! ## Dynamic Step Resolver (`_create_transformer_from_config`) -/

/-- Model of `PreprocessorStepConfig` (src/data/preprocessor/schema.py). -/
structure PreprocessorStepConfig where
  name : String
  class_path : String
  params : Params
deriving DecidableEq, Repr

/-- Model of `StepMetadataConfig` (src/data/preprocessor/schema.py). -/
structure StepMetadataConfig where
  name : String
  class_path : String
  params : Params
  source_hash : String
deriving DecidableEq, Repr

/-- Stand-in for `hashlib.sha256(inspect.getsource(cls))`: source text
is not representable in the embedding, so the content hash is an
injective tag of the class; no claim depends on its value. -/
def classSourceHash (c : TClass) : String := "sha256:" ++ c.name

/-- Construction `cls(**params)`: checks the keyword arguments against
the `__init__` signature of the class (unexpected or missing arguments raise
`TypeError`; an argument value of an unusable shape is also modelled as
`TypeError` at construction, a simplification — Python would defer such
errors to later use, which no claim exercises). -/
def mkTransformer (c : TClass) (ps : Params) : Except PyErr Transformer :=
  match c with
  | .intToFloatConverter =>
    if ps.names.all (fun n => decide (n = "columns")) then
      match ps.get "columns" with
      | none => .ok (.intToFloatConverter none [])
      | some (.ls cs) => .ok (.intToFloatConverter (some cs) [])
      | some _ => .error (.typeError "IntToFloatConverter: bad argument")
    else .error (.typeError "IntToFloatConverter: unexpected keyword argument")
  | .meanImputer =>
    if ps.names.all (fun n => decide (n = "input_cols")) then
      match ps.get "input_cols" with
      | some (.ls cs) => .ok (.meanImputer cs [])
      | some _ => .error (.typeError "MeanImputer: bad argument")
      | none => .error (.typeError "MeanImputer: missing argument input_cols")
    else .error (.typeError "MeanImputer: unexpected keyword argument")
  | .groupedAggregator =>
    if ps.names.all (fun n =>
        decide (n ∈ ["input_cols", "groupby_col", "aggregations", "output_cols"])) then
      match ps.get "input_cols", ps.get "groupby_col",
          ps.get "aggregations", ps.get "output_cols" with
      | some (.ls ics), some (.s g), some (.agg ags), some (.ls ocs) =>
        .ok (.groupedAggregator ics g ags ocs none)
      | _, _, _, _ => .error (.typeError "GroupedAggregator: bad arguments")
    else .error (.typeError "GroupedAggregator: unexpected keyword argument")
  | .columnSubtractor =>
    if ps.names.all (fun n =>
        decide (n ∈ ["input_cols", "output_col", "col_a", "col_b"])) then
      match ps.get "input_cols", ps.get "output_col",
          ps.get "col_a", ps.get "col_b" with
      | some (.ls ics), some (.s oc), some (.s ca), some (.s cb) =>
        .ok (.columnSubtractor ics oc ca cb)
      | _, _, _, _ => .error (.typeError "ColumnSubtractor: bad arguments")
    else .error (.typeError "ColumnSubtractor: unexpected keyword argument")
  | .absoluteDifference =>
    if ps.names.all (fun n =>
        decide (n ∈ ["input_cols", "output_col", "col_a", "col_b"])) then
      match ps.get "input_cols", ps.get "output_col",
          ps.get "col_a", ps.get "col_b" with
      | some (.ls ics), some (.s oc), some (.s ca), some (.s cb) =>
        .ok (.absoluteDifference ics oc ca cb)
      | _, _, _, _ => .error (.typeError "AbsoluteDifference: bad arguments")
    else .error (.typeError "AbsoluteDifference: unexpected keyword argument")
  | .thresholdBinarizer =>
    if ps.names.all (fun n =>
        decide (n ∈ ["input_col", "output_col", "threshold"])) then
      match ps.get "input_col", ps.get "output_col", ps.get "threshold" with
      | some (.s ic), some (.s oc), some (.f th) =>
        .ok (.thresholdBinarizer ic oc th)
      | _, _, _ => .error (.typeError "ThresholdBinarizer: bad arguments")
    else .error (.typeError "ThresholdBinarizer: unexpected keyword argument")

def DEFAULT_MODULE_PREFIX : String := "src.data.preprocessor."

/-- The membership test for a dot in the path, over the underlying
characters. -/
def containsDot (s : String) : Bool := s.data.contains '.'

/-- The test `s.startswith(pre)`, over the underlying characters. -/
def startsWith (pre s : String) : Bool := List.isPrefixOf pre.data s.data

/-- Splitting at dots on the character list. -/
def splitDotChars : List Char → List (List Char)
  | [] => [[]]
  | c :: rest =>
    match splitDotChars rest with
    | [] => [[c]]
    | h :: t => if c = '.' then [] :: h :: t else (c :: h) :: t

/-- Joining with dots on character lists. -/
def joinDotChars : List (List Char) → List Char
  | [] => []
  | [h] => h
  | h :: t => h ++ ('.' :: joinDotChars t)

/-- The first dot-separated segment of the locator. -/
def headSegment (s : String) : String :=
  match splitDotChars s.data with
  | [] => s
  | h :: _ => ⟨h⟩

/-- The split `rsplit` at the last dot, unpacked into module and class name; `none` when
there is no separator (the two-target unpacking raises `ValueError`,
which the resolver catches). -/
def rsplitDot (s : String) : Option (String × String) :=
  match (splitDotChars s.data).reverse with
  | [] => none
  | [_] => none
  | cls :: rest => some (⟨joinDotChars rest.reverse⟩, ⟨cls⟩)

/-- Model of `importlib.import_module`, narrowed to the module that
the default namespace targets and that every transformer locator of
this repository uses.  Other importable repository modules and their
attributes are outside this registry, so the theorems below assert a
location failure only at concrete locators that fail to resolve in the
repository as well (a nonexistent submodule, a missing attribute of
feature_store, a separator-free locator that fails before any import),
or conditionally on the outcome recorded in this registry. -/
def importModule (m : String) : Option (List (String × TClass)) :=
  if m = "src.data.preprocessor.feature_store" then
    some [("IntToFloatConverter", .intToFloatConverter),
          ("MeanImputer", .meanImputer),
          ("GroupedAggregator", .groupedAggregator),
          ("ColumnSubtractor", .columnSubtractor),
          ("AbsoluteDifference", .absoluteDifference),
          ("ThresholdBinarizer", .thresholdBinarizer)]
  else none

/-- The locator expansion of `_create_transformer_from_config`: a path
containing a separator, not already under the default prefix and whose
first segment is not `src`, is expanded against the default prefix. -/
def expandClassPath (cp : String) : String :=
  if containsDot cp && !startsWith DEFAULT_MODULE_PREFIX cp
      && !(decide (headSegment cp = "src")) then
    DEFAULT_MODULE_PREFIX ++ cp
  else cp

/-- The body of the resolver after locator expansion: the try-block
(split at the last separator, module import and attribute fetch, each
failure wrapped in `ImportError` naming the original locator), followed
by construction with the supplied parameters — construction is outside
the try-block, so its errors propagate unwrapped. -/
def resolveExpanded (path : String) (orig : String) (ps : Params) :
    Except PyErr Transformer :=
  match rsplitDot path with
  | none => .error (.importError ("Could not import class " ++ orig))
  | some (modPath, clsName) =>
    match importModule modPath with
    | none => .error (.importError ("Could not import class " ++ orig))
    | some classes =>
      match classes.find? (fun p => decide (p.1 = clsName)) with
      | none => .error (.importError ("Could not import class " ++ orig))
      | some p => mkTransformer p.2 ps

/-- Model of `_create_transformer_from_config`: expand the locator,
then resolve and construct. -/
def createTransformerFromConfig (cfg : PreprocessorStepConfig) :
    Except PyErr Transformer :=
  resolveExpanded (expandClassPath cfg.class_path) cfg.class_path cfg.params

/-! ## Pipeline Orchestrator (`FeaturesPreprocessor`) -/

/-- Model of `FeaturesPreprocessor`: the declared steps and the `fitted_steps_`
attribute (`none` models the attribute being absent, i.e. never
fitted). -/
structure FeaturesPreprocessor where
  steps : List PreprocessorStepConfig
  fitted_steps : Option (List Transformer) := none
deriving DecidableEq, Repr

/-- The fit loop body: resolve → construct → fit → append → transform,
threading the cumulative frame.  Returns the appended list built so far
together with the outcome, mirroring that the Python append onto `fitted_steps_` has already
happened when a later step, or the `transform` call of the same
step, raises. -/
def fitSteps : List PreprocessorStepConfig → List Transformer → DataFrame →
    List Transformer × Except PyErr Unit
  | [], acc, _ => (acc, .ok ())
  | cfg :: rest, acc, df =>
    match createTransformerFromConfig cfg with
    | .error e => (acc, .error e)
    | .ok t =>
      match t.fit df with
      | .error e => (acc, .error e)
      | .ok tf =>
        match tf.transform df with
        | .error e => (acc ++ [tf], .error e)
        | .ok df' => fitSteps rest (acc ++ [tf]) df'

/-- Model of `FeaturesPreprocessor.fit`: the empty `fitted_steps_` is assigned
before the loop, so the attribute is set — possibly to a partial
prefix — even when a step fails; the second component is the outcome of the call (`error` models the exception propagating to the caller). -/
def FeaturesPreprocessor.fit (p : FeaturesPreprocessor) (X : DataFrame) :
    FeaturesPreprocessor × Except PyErr Unit :=
  match fitSteps p.steps [] X with
  | (ts, r) => ({ p with fitted_steps := some ts }, r)

/-- Model of `FeaturesPreprocessor.transform`: `RuntimeError` when
`fitted_steps_` was never assigned, else replay the fitted sequence. -/
def FeaturesPreprocessor.transform (p : FeaturesPreprocessor) (X : DataFrame) :
    Except PyErr DataFrame :=
  match p.fitted_steps with
  | none =>
    .error (.runtimeError
      "This preprocessor instance is not fitted yet. Call fit before transform.")
  | some ts => ts.foldlM (fun df t => t.transform df) X

/-- Model of `FeaturesPreprocessor.get_metadata`: `RuntimeError` when
`fitted_steps_` is absent or empty, else one metadata entry per
`zip(self.steps, self.fitted_steps_)` pair. -/
def FeaturesPreprocessor.get_metadata (p : FeaturesPreprocessor) :
    Except PyErr (List StepMetadataConfig) :=
  match p.fitted_steps with
  | none =>
    .error (.runtimeError "Pipeline has not been fitted. Call get_metadata after fit.")
  | some ts =>
    if ts.isEmpty then
      .error (.runtimeError "Pipeline has not been fitted. Call get_metadata after fit.")
    else
      .ok ((p.steps.zip ts).map (fun ct =>
        { name := ct.1.name
          class_path := ct.1.class_path
          params := ct.1.params
          source_hash := classSourceHash ct.2.tclass }))

/-! ## Full-Pipeline Composer (src/models/pyfunc_wrapper.py) -/

/-- The numpy dtypes a prediction collection can carry. -/
inductive Dtype where
  | int64
  | float64
  | obj
deriving DecidableEq, Repr

/-- A pandas Series as returned by `predict`: dtype, optional name and
`(index label, value)` entries. -/
structure Series where
  dtype : Dtype
  name : Option String
  entries : List (Nat × Val)
deriving DecidableEq, Repr

/-- Model of `ColonyStrengthClassifier` (src/models/colony_classifier.py),
consumed through its fit/predict contract: `classes_` is `None` until
fit and afterwards carries the learned label dtype and values; the
prediction function of the underlying model is opaque (its numerics are out
of scope). -/
structure ColonyStrengthClassifier where
  classes_ : Option (Dtype × List Val)
  predictFn : DataFrame → List Val

/-- The fitted scikit-learn `Pipeline` assembled by `train_model`
(src/train.py): named steps `preprocessor`, `feature_selector` (a
passthrough `ColumnTransformer` over the configured feature columns,
remainder dropped) and `classifier`; the `classifier` item lookup on the pipeline retrieves
the latter. -/
structure SklearnPipeline where
  preprocessor : FeaturesPreprocessor
  feature_columns : List ColName
  classifier : ColonyStrengthClassifier

/-- The passthrough `ColumnTransformer`: keep exactly the feature
columns, failing when one is absent. -/
def selectColumns (df : DataFrame) (cs : List ColName) : Except PyErr DataFrame :=
  if cs.all (fun c => decide (c ∈ df.cols)) then
    .ok ⟨cs, df.rows.map (fun r => (r.1, cs.map (fun c => cellVal df.cols c r.2)))⟩
  else .error (.valueError "A given column is not a column of the dataframe")

/-- Model of `ColonyStrengthClassifier.predict`: first `check_is_fitted`, then the
predictions of the underlying model (the fitted state and `classes_` are set
together in `fit`). -/
def ColonyStrengthClassifier.predict (c : ColonyStrengthClassifier)
    (X : DataFrame) : Except PyErr (List Val) :=
  match c.classes_ with
  | none => .error (.notFittedError "This ColonyStrengthClassifier instance is not fitted yet.")
  | some _ => .ok (c.predictFn X)

/-- Model of `Pipeline.predict`: transform through the non-final steps in order,
then predict of the final estimator. -/
def SklearnPipeline.predict (p : SklearnPipeline) (X : DataFrame) :
    Except PyErr (List Val) :=
  match p.preprocessor.transform X with
  | .error e => .error e
  | .ok df1 =>
    match selectColumns df1 p.feature_columns with
    | .error e => .error e
    | .ok df2 => p.classifier.predict df2

/-- Model of `FullPipelinePyFunc`: the composer, built from already-fitted
components. -/
structure FullPipelinePyFunc where
  outlier_remover : OutlierRemover
  sklearn_pipeline : SklearnPipeline

/-- Model of `FullPipelinePyFunc.predict`: filter the raw input (no labels); if
every row was removed return an empty Series typed by the dtype of the
learned classes of the classifier (`classes_ = None` would fail attribute access);
otherwise run the fitted pipeline on the survivors and reattach the
predictions to the surviving identifiers (`pd.Series(values, index)`
requires matching lengths; the dtype of the prediction array is that of the
learned classes). -/
def FullPipelinePyFunc.predict (m : FullPipelinePyFunc)
    (model_input : DataFrame) : Except PyErr Series :=
  match m.outlier_remover.transform model_input none with
  | .error e => .error e
  | .ok (cleaned, _) =>
    if cleaned.rows.isEmpty then
      match m.sklearn_pipeline.classifier.classes_ with
      | none => .error (.attributeError "NoneType object has no attribute dtype")
      | some cls => .ok ⟨cls.1, none, []⟩
    else
      match m.sklearn_pipeline.predict cleaned with
      | .error e => .error e
      | .ok preds =>
        if preds.length = cleaned.rows.length then
          .ok ⟨(match m.sklearn_pipeline.classifier.classes_ with
                | some cls => cls.1
                | none => Dtype.obj),
               some "prediction", cleaned.ids.zip preds⟩
        else .error (.valueError "Length of values does not match length of index")

/-! ## Concrete example data used by the witnesses and counterexamples -/

/-- Example filter config, mirroring the test fixture of the repository. -/
def cfgW : OutlierRemoverConfig :=
  { group_by_column := "sensor_id"
    temperature_column := "temperature_sensor"
    max_temp_threshold := 50
    min_temp_threshold := 10 }

/-- A fitted example filter: group A has mean 21, group B mean 55. -/
def rW : OutlierRemover :=
  { config := cfgW
    group_means := some [(.str "A", some 21), (.str "B", some 55)] }

/-- Example table: one row of group A (kept), one of B (mean out of
range), one of unseen group D. -/
def XW : DataFrame :=
  ⟨["sensor_id", "temperature_sensor"],
   [(0, [.str "A", .int 20]), (1, [.str "B", .int 55]), (2, [.str "D", .int 7])]⟩

/-- The surviving frame of `rW.transform XW`. -/
def XfW : DataFrame :=
  ⟨["sensor_id", "temperature_sensor"], [(0, [.str "A", .int 20])]⟩

/-- Labels with distinct identifiers for the example table. -/
def ysW : Labels := [(0, .int 1), (1, .int 0), (2, .int 1)]

/-- Fit table whose groups have no numeric temperatures (NaN means). -/
def XtrainW : DataFrame :=
  ⟨["sensor_id", "temperature_sensor"], [(0, [.str "A", .na]), (1, [.str "B", .na])]⟩

/-- The remover fitted on `XtrainW`: both learned means are NaN. -/
def rFit0W : OutlierRemover :=
  { config := cfgW, group_means := some [(.str "A", none), (.str "B", none)] }

/-- Transform table containing a row of the unseen group Z. -/
def XzW : DataFrame :=
  ⟨["sensor_id", "temperature_sensor"], [(0, [.str "A", .int 20]), (1, [.str "Z", .int 20])]⟩

/-- The (empty) survivor frame of `rFit0W.transform XzW`. -/
def XzEmptyW : DataFrame := ⟨["sensor_id", "temperature_sensor"], []⟩

/-- A fitted example classifier with int64 classes. -/
def clfW : ColonyStrengthClassifier :=
  { classes_ := some (.int64, [.int 0, .int 1]), predictFn := fun _ => [] }

/-- A (trivially) fitted example pipeline around `clfW`. -/
def pipeW : SklearnPipeline :=
  { preprocessor := { steps := [], fitted_steps := some [] }
    feature_columns := []
    classifier := clfW }

/-- Example composer: the all-NaN-means filter plus `pipeW`. -/
def pyfW : FullPipelinePyFunc :=
  { outlier_remover := rFit0W, sklearn_pipeline := pipeW }

/-- Step configs used by the counterexamples: a resolvable binarizer
step followed by an unresolvable one. -/
def stepOkW : PreprocessorStepConfig :=
  { name := "binarize_a"
    class_path := "feature_store.ThresholdBinarizer"
    params := [("input_col", .s "a"), ("output_col", .s "b"), ("threshold", .f 0)] }

def stepBadW : PreprocessorStepConfig :=
  { name := "broken"
    class_path := "nosuch.Thing"
    params := [] }

/-- An orchestrator whose second step cannot be resolved. -/
def pC5 : FeaturesPreprocessor := { steps := [stepOkW, stepBadW] }

/-- A table on which `stepOkW` fits and transforms. -/
def dfC5 : DataFrame := ⟨["a"], [(0, [.int 5])]⟩

/-- An orchestrator with an empty step list. -/
def pEmptyW : FeaturesPreprocessor := { steps := [] }

/-- An orchestrator with one resolvable step. -/
def pC6ok : FeaturesPreprocessor := { steps := [stepOkW] }

/-- A one-column table holding only the output column name "b". -/
def dfOnlyB : DataFrame := ⟨["b"], [(0, [.int 1])]⟩

/-- A two-column table for the collision witnesses. -/
def df7 : DataFrame := ⟨["a", "b"], [(0, [.int 1, .int 2])]⟩

/-! ## Lemmas about the row filter -/

theorem findIdx_self_append {l : List ColName} {c : ColName} (h : c ∉ l) :
    (l ++ [c]).findIdx? (fun x => decide (x = c)) = some l.length := by
  rw [List.findIdx?_append,
    List.findIdx?_eq_none_iff.2 (fun x hx => by
      simp only [decide_eq_false_iff_not]
      exact fun he => h (he ▸ hx))]
  simp [List.findIdx?_cons]

theorem eraseIdx_append_length {α : Type} (l : List α) (a : α) :
    (l ++ [a]).eraseIdx l.length = l := by
  rw [List.eraseIdx_append_of_length_le (Nat.le_refl _)]
  simp

/-- Inversion of the success path of `OutlierRemover.transform`: on
`ok`, the remover was fitted, the group column was present, the
temporary statistic column name was not, and the returned frame is the
merge-filter-drop of the input. -/
theorem OutlierRemover.transform_ok_inv {r : OutlierRemover} {X : DataFrame}
    {y : Option Labels} {X' : DataFrame} {oy : Option Labels}
    (h : r.transform X y = .ok (X', oy)) :
    ∃ gm, r.group_means = some gm ∧
      r.config.group_by_column ∈ X.cols ∧
      mkMeanColName r.config.group_by_column ∉ X.cols ∧
      dropColumn
          ⟨(addMeanCol gm r.config.group_by_column X).cols,
           (addMeanCol gm r.config.group_by_column X).rows.filter
             (meanMask r.config (addMeanCol gm r.config.group_by_column X).cols)⟩
          (mkMeanColName r.config.group_by_column) = .ok X' := by
  unfold OutlierRemover.transform at h
  cases hgm : r.group_means with
  | none => rw [hgm] at h; exact absurd h (by simp)
  | some gm =>
    rw [hgm] at h
    dsimp only at h
    refine ⟨gm, rfl, ?_⟩
    by_cases hg : r.config.group_by_column ∈ X.cols
    · rw [if_pos hg] at h
      by_cases hm : mkMeanColName r.config.group_by_column ∈ X.cols
      · rw [if_pos hm] at h; exact absurd h (by simp)
      · rw [if_neg hm] at h
        refine ⟨hg, hm, ?_⟩
        cases hdrop : dropColumn
            ⟨(addMeanCol gm r.config.group_by_column X).cols,
             (addMeanCol gm r.config.group_by_column X).rows.filter
               (meanMask r.config (addMeanCol gm r.config.group_by_column X).cols)⟩
            (mkMeanColName r.config.group_by_column) with
        | error e => rw [hdrop] at h; exact absurd h (by simp)
        | ok Xf =>
          rw [hdrop] at h
          dsimp only at h
          cases y with
          | none =>
            simp only [Except.ok.injEq, Prod.mk.injEq] at h
            rw [h.1]
          | some ys =>
            dsimp only at h
            cases hsel : locSelect ys Xf.ids with
            | ok ysel =>
              rw [hsel] at h
              dsimp only at h
              simp only [Except.ok.injEq, Prod.mk.injEq] at h
              rw [h.1]
            | error e => rw [hsel] at h; exact absurd h (by simp)
    · rw [if_neg hg] at h; exact absurd h (by simp)

theorem dropColumn_concat_ok {cols : List ColName} {m : ColName}
    {rows : List (Nat × List Val)} (hm : m ∉ cols) :
    dropColumn ⟨cols ++ [m], rows⟩ m =
      .ok ⟨cols, rows.map (fun r => (r.1, r.2.eraseIdx cols.length))⟩ := by
  unfold dropColumn
  have : (⟨cols ++ [m], rows⟩ : DataFrame).cols.findIdx? (fun x => decide (x = m)) =
      some cols.length := findIdx_self_append hm
  rw [this]
  dsimp only
  rw [eraseIdx_append_length]

/-- The success path of `transform`, with the returned frame written
out: the rows of the input, merged with the statistic column, filtered by
the threshold mask, with the statistic column dropped again. -/
theorem OutlierRemover.transform_ok_frame {r : OutlierRemover} {X : DataFrame}
    {y : Option Labels} {X' : DataFrame} {oy : Option Labels}
    (h : r.transform X y = .ok (X', oy)) :
    ∃ gm, r.group_means = some gm ∧
      mkMeanColName r.config.group_by_column ∉ X.cols ∧
      X' = ⟨X.cols,
        ((addMeanCol gm r.config.group_by_column X).rows.filter
          (meanMask r.config (addMeanCol gm r.config.group_by_column X).cols)).map
          (fun rr => (rr.1, rr.2.eraseIdx X.cols.length))⟩ := by
  obtain ⟨gm, hgm, _, hm, hdrop⟩ := OutlierRemover.transform_ok_inv h
  refine ⟨gm, hgm, hm, ?_⟩
  rw [show (addMeanCol gm r.config.group_by_column X).cols =
      X.cols ++ [mkMeanColName r.config.group_by_column] from rfl] at hdrop
  rw [dropColumn_concat_ok hm] at hdrop
  exact (Except.ok.injEq _ _ ▸ hdrop).symm

/-! ## C1: identifier subset law -/

/-- C1: For every fitted Group-Statistic Row Filter and every table
`T` on which `transform` returns, the identifier sequence of the
returned table is a sublist of the identifier sequence of `T` — a
subset of the identifiers of `T` in the same relative order — and no identifier in the
output is absent from the input. -/
theorem C1_transform_ids_sublist (r : OutlierRemover) (X : DataFrame)
    (y : Option Labels) (X' : DataFrame) (oy : Option Labels)
    (h : r.transform X y = .ok (X', oy)) :
    X'.ids.Sublist X.ids ∧ ∀ i ∈ X'.ids, i ∈ X.ids := by
  obtain ⟨gm, -, -, hx⟩ := OutlierRemover.transform_ok_frame h
  have hsub : X'.ids.Sublist X.ids := by
    rw [hx]
    show (((addMeanCol gm r.config.group_by_column X).rows.filter
        (meanMask r.config (addMeanCol gm r.config.group_by_column X).cols)).map
        (fun rr => (rr.1, rr.2.eraseIdx X.cols.length))).map Prod.fst |>.Sublist X.ids
    rw [List.map_map]
    have h1 : ((addMeanCol gm r.config.group_by_column X).rows.filter
        (meanMask r.config (addMeanCol gm r.config.group_by_column X).cols)).map
        (Prod.fst ∘ fun rr => (rr.1, rr.2.eraseIdx X.cols.length)) =
        ((addMeanCol gm r.config.group_by_column X).rows.filter
          (meanMask r.config (addMeanCol gm r.config.group_by_column X).cols)).map Prod.fst :=
      List.map_congr_left (fun a _ => rfl)
    rw [h1]
    have h2 := (List.filter_sublist (p := meanMask r.config
        (addMeanCol gm r.config.group_by_column X).cols)
        ((addMeanCol gm r.config.group_by_column X).rows)).map Prod.fst
    have h3 : (addMeanCol gm r.config.group_by_column X).rows.map Prod.fst = X.ids := by
      show (X.rows.map _).map Prod.fst = X.ids
      rw [List.map_map]
      exact List.map_congr_left (fun a _ => rfl)
    rw [h3] at h2
    exact h2
  exact ⟨hsub, fun i hi => hsub.subset hi⟩

/-! ## C10: frame effect on columns -/

/-- C10: For every fitted Group-Statistic Row Filter and every table
whose column names do not include the internal temporary statistic
column name, a successful `transform` returns a table with exactly the
columns of the input: the joined-in per-group statistic never appears in the
output. -/
theorem C10_transform_preserves_columns (r : OutlierRemover) (X : DataFrame)
    (y : Option Labels) (X' : DataFrame) (oy : Option Labels)
    (_hname : mkMeanColName r.config.group_by_column ∉ X.cols)
    (h : r.transform X y = .ok (X', oy)) :
    X'.cols = X.cols := by
  obtain ⟨gm, -, -, hx⟩ := OutlierRemover.transform_ok_frame h
  rw [hx]

/-! ## C4: unseen groups are always dropped -/

/-- Inversion of a successful `fit`: the config is kept and the learned
means are the per-group means of the fit table. -/
theorem OutlierRemover.fit_ok_inv {r : OutlierRemover} {X : DataFrame}
    {r' : OutlierRemover} (h : r.fit X = .ok r') :
    r'.config = r.config ∧
    r'.group_means = some ((groupKeys X r.config.group_by_column).map (fun k =>
      (k, meanOpt
        (((X.rows.filter
              (fun row => decide (cellVal X.cols r.config.group_by_column row.2 = k))).map
            (fun row => cellVal X.cols r.config.temperature_column row.2)).filterMap
          Val.toQ)))) := by
  unfold OutlierRemover.fit at h
  by_cases hc :
      [r.config.group_by_column, r.config.temperature_column].all
        (fun c => X.cols.contains c)
  · rw [if_pos hc] at h
    simp only [Except.ok.injEq] at h
    rw [← h]
    exact ⟨rfl, rfl⟩
  · rw [if_neg hc] at h
    exact absurd h (by simp)

theorem cellVal_append_self {cols : List ColName} {m : ColName} (hm : m ∉ cols)
    {vs : List Val} (hlen : vs.length = cols.length) (v : Val) :
    cellVal (cols ++ [m]) m (vs ++ [v]) = v := by
  unfold cellVal
  rw [findIdx_self_append hm]
  dsimp only
  rw [List.getD_eq_getElem?_getD, ← hlen, List.getElem?_concat_length]
  rfl

/-- A row whose looked-up statistic is present has its group key among
the fitted keys. -/
theorem lookupMean_some_mem {gm : GroupMeans} {k : Val} {q : ℚ}
    (h : lookupMean gm k = some q) : k ∈ gm.map Prod.fst := by
  have hfind : ∃ pr, gm.find? (fun p => decide (p.1 = k)) = some pr := by
    cases k with
    | na => exact absurd h (by simp [lookupMean])
    | int n =>
      unfold lookupMean at h
      cases hf : gm.find? (fun p => decide (p.1 = .int n)) with
      | none => rw [hf] at h; exact absurd h (by simp)
      | some p => exact ⟨p, rfl⟩
    | float qq =>
      unfold lookupMean at h
      cases hf : gm.find? (fun p => decide (p.1 = .float qq)) with
      | none => rw [hf] at h; exact absurd h (by simp)
      | some p => exact ⟨p, rfl⟩
    | str s =>
      unfold lookupMean at h
      cases hf : gm.find? (fun p => decide (p.1 = .str s)) with
      | none => rw [hf] at h; exact absurd h (by simp)
      | some p => exact ⟨p, rfl⟩
  obtain ⟨p, hf⟩ := hfind
  have hp : p ∈ gm := List.mem_of_find?_eq_some hf
  have hk : p.1 = k := by
    have := List.find?_some hf
    simpa using this
  exact hk ▸ List.mem_map_of_mem Prod.fst hp

theorem groupKeys_subset_colValues (df : DataFrame) (g : ColName) :
    groupKeys df g ⊆ colValues df g := fun _v hv =>
  (List.filter_sublist _).subset (List.dedup_subset _ hv)

/-- C4: For every Group-Statistic Row Filter fitted on a table
`Xtrain` and every (rectangular) table `X`, every surviving row of
`transform` carries a group-key value that occurs in the group
column of the fit data; equivalently, every row of `X` whose group-key value was
absent from the fit data is excluded from the output, regardless of its
statistic value and of the configured thresholds. -/
theorem C4_unseen_group_rows_dropped (r0 r' : OutlierRemover)
    (Xtrain X : DataFrame) (y : Option Labels) (X' : DataFrame)
    (oy : Option Labels)
    (hfit : r0.fit Xtrain = .ok r') (hwf : X.WF)
    (ht : r'.transform X y = .ok (X', oy)) :
    (∀ row ∈ X'.rows,
       cellVal X.cols r0.config.group_by_column row.2 ∈
         colValues Xtrain r0.config.group_by_column) ∧
    (∀ row ∈ X.rows,
       cellVal X.cols r0.config.group_by_column row.2 ∉
         colValues Xtrain r0.config.group_by_column → row ∉ X'.rows) := by
  obtain ⟨hcfg, hgm⟩ := OutlierRemover.fit_ok_inv hfit
  obtain ⟨gm, hgm', hmnot, hx⟩ := OutlierRemover.transform_ok_frame ht
  rw [hcfg] at hmnot hx
  rw [hgm'] at hgm
  have hgmeq : gm = (groupKeys Xtrain r0.config.group_by_column).map (fun k =>
      (k, meanOpt
        (((Xtrain.rows.filter
              (fun row =>
                decide (cellVal Xtrain.cols r0.config.group_by_column row.2 = k))).map
            (fun row => cellVal Xtrain.cols r0.config.temperature_column row.2)).filterMap
          Val.toQ))) := by
    exact Option.some_injective _ hgm
  have hmain : ∀ row ∈ X'.rows,
      cellVal X.cols r0.config.group_by_column row.2 ∈
        colValues Xtrain r0.config.group_by_column := by
    intro row hrow
    rw [hx] at hrow
    simp only [List.mem_map, List.mem_filter] at hrow
    obtain ⟨a, ⟨ha, hmask⟩, hae⟩ := hrow
    simp only [addMeanCol, List.mem_map] at ha
    obtain ⟨row0, hrow0, hfa⟩ := ha
    have hlen : row0.2.length = X.cols.length := hwf row0 hrow0
    -- the appended statistic cell is read back by the mask
    have hcellm : cellVal (addMeanCol gm r0.config.group_by_column X).cols
        (mkMeanColName r0.config.group_by_column) a.2 =
        optMeanToVal (lookupMean gm
          (cellVal X.cols r0.config.group_by_column row0.2)) := by
      rw [← hfa]
      exact cellVal_append_self hmnot hlen _
    rw [meanMask, hcellm] at hmask
    cases hlk : lookupMean gm (cellVal X.cols r0.config.group_by_column row0.2) with
    | none => rw [hlk] at hmask; exact absurd hmask (by simp [optMeanToVal, Val.toQ])
    | some q =>
      have hkey : cellVal X.cols r0.config.group_by_column row0.2 ∈ gm.map Prod.fst :=
        lookupMean_some_mem hlk
      have hkeys : gm.map Prod.fst = groupKeys Xtrain r0.config.group_by_column := by
        rw [hgmeq, List.map_map]
        exact List.map_congr_left (fun a _ => rfl) |>.trans (List.map_id _)
      have hrow_eq : row = row0 := by
        rw [← hae, ← hfa]
        show (row0.1, (row0.2 ++ [_]).eraseIdx X.cols.length) = row0
        rw [← hlen, eraseIdx_append_length]
      rw [hrow_eq]
      exact groupKeys_subset_colValues Xtrain r0.config.group_by_column
        (hkeys ▸ hkey)
  refine ⟨hmain, fun row _ habs hmem => habs (hmain row hmem)⟩

/-! ## C2: label alignment -/

/-- Inversion of a successful `transform` with labels: the returned
labels are the `loc`-selection of the input labels at the surviving
identifiers. -/
theorem OutlierRemover.transform_some_ok_inv {r : OutlierRemover} {X : DataFrame}
    {ys : Labels} {X' : DataFrame} {oy : Option Labels}
    (h : r.transform X (some ys) = .ok (X', oy)) :
    ∃ ysel, oy = some ysel ∧ locSelect ys X'.ids = .ok ysel := by
  unfold OutlierRemover.transform at h
  cases hgm : r.group_means with
  | none => rw [hgm] at h; exact absurd h (by simp)
  | some gm =>
    rw [hgm] at h
    dsimp only at h
    by_cases hg : r.config.group_by_column ∈ X.cols
    · rw [if_pos hg] at h
      by_cases hm : mkMeanColName r.config.group_by_column ∈ X.cols
      · rw [if_pos hm] at h; exact absurd h (by simp)
      · rw [if_neg hm] at h
        cases hdrop : dropColumn
            ⟨(addMeanCol gm r.config.group_by_column X).cols,
             (addMeanCol gm r.config.group_by_column X).rows.filter
               (meanMask r.config (addMeanCol gm r.config.group_by_column X).cols)⟩
            (mkMeanColName r.config.group_by_column) with
        | error e => rw [hdrop] at h; exact absurd h (by simp)
        | ok Xf =>
          rw [hdrop] at h
          dsimp only at h
          cases hsel : locSelect ys Xf.ids with
          | ok ysel =>
            rw [hsel] at h
            dsimp only at h
            simp only [Except.ok.injEq, Prod.mk.injEq] at h
            exact ⟨ysel, h.2.symm, by rw [← h.1]; exact hsel⟩
          | error e => rw [hsel] at h; exact absurd h (by simp)
    · rw [if_neg hg] at h; exact absurd h (by simp)

/-- In a label collection with pairwise-distinct identifiers, the
entries matching one identifier are nothing or a single pair. -/
theorem filter_fst_nodup {ys : Labels} (h : (ys.map Prod.fst).Nodup) (i : Nat) :
    ys.filter (fun p => decide (p.1 = i)) = [] ∨
    ∃ v, ys.filter (fun p => decide (p.1 = i)) = [(i, v)] := by
  induction ys with
  | nil => left; rfl
  | cons a t ih =>
    rw [List.map_cons, List.nodup_cons] at h
    obtain ⟨ha, ht⟩ := h
    by_cases hai : a.1 = i
    · right
      rw [List.filter_cons_of_pos (by simp [hai])]
      refine ⟨a.2, ?_⟩
      have hnil : t.filter (fun p => decide (p.1 = i)) = [] := by
        apply List.filter_eq_nil_iff.2
        intro p hp
        simp only [decide_eq_true_eq]
        intro hpi
        exact ha (by
          rw [hai, ← hpi]
          exact List.mem_map_of_mem Prod.fst hp)
      rw [hnil]
      rw [show a = (a.1, a.2) from rfl, hai]
    · rw [List.filter_cons_of_neg (by simp [hai])]
      exact ih ht

/-- The `loc`-selection over a duplicate-free label collection returns
exactly the requested identifiers, in order. -/
theorem locSelect_map_fst {ys : Labels} (hnodup : (ys.map Prod.fst).Nodup) :
    ∀ {ids : List Nat} {out : Labels},
      locSelect ys ids = .ok out → out.map Prod.fst = ids := by
  intro ids
  induction ids with
  | nil =>
    intro out h
    unfold locSelect at h
    simp only [Except.ok.injEq] at h
    rw [← h]
    rfl
  | cons i rest ih =>
    intro out h
    unfold locSelect at h
    by_cases he : (ys.filter (fun p => decide (p.1 = i))).isEmpty
    · rw [if_pos he] at h; exact absurd h (by simp)
    · rw [if_neg he] at h
      cases hrec : locSelect ys rest with
      | error e => rw [hrec] at h; exact absurd h (by simp)
      | ok r2 =>
        rw [hrec] at h
        dsimp only at h
        simp only [Except.ok.injEq] at h
        rcases filter_fst_nodup hnodup i with hnil | ⟨v, hone⟩
        · rw [hnil] at he; exact absurd rfl he
        · rw [← h, List.map_append, hone, ih hrec]
          rfl

/-- C2: For every fitted Group-Statistic Row Filter, every table
and every label collection supplied alongside it (a collection keyed by
pairwise-distinct row identifiers, as labels are in the data model of
the spec), a
successful `transform` returns labels indexed by exactly the
identifiers of the returned table, in the same order. -/
theorem C2_labels_share_ids (r : OutlierRemover) (X : DataFrame) (ys : Labels)
    (X' : DataFrame) (oy : Option Labels)
    (hnodup : (ys.map Prod.fst).Nodup)
    (h : r.transform X (some ys) = .ok (X', oy)) :
    ∃ ys', oy = some ys' ∧ ys'.map Prod.fst = X'.ids := by
  obtain ⟨ysel, hoy, hsel⟩ := OutlierRemover.transform_some_ok_inv h
  exact ⟨ysel, hoy, locSelect_map_fst hnodup hsel⟩

theorem C1_witness :
    rW.transform XW none = .ok (XfW, none) ∧
    (XfW.ids.Sublist XW.ids ∧ ∀ i ∈ XfW.ids, i ∈ XW.ids) :=
  ⟨by decide, C1_transform_ids_sublist rW XW none XfW none (by decide)⟩

theorem C10_witness :
    mkMeanColName rW.config.group_by_column ∉ XW.cols ∧
    rW.transform XW none = .ok (XfW, none) ∧
    XfW.cols = XW.cols :=
  ⟨by decide, by decide,
   C10_transform_preserves_columns rW XW none XfW none (by decide) (by decide)⟩

theorem C2_witness :
    (ysW.map Prod.fst).Nodup ∧
    rW.transform XW (some ysW) = .ok (XfW, some [(0, Val.int 1)]) ∧
    ∃ ys', (some [(0, Val.int 1)] : Option Labels) = some ys' ∧
      ys'.map Prod.fst = XfW.ids :=
  ⟨by decide, by decide,
   C2_labels_share_ids rW XW ysW XfW (some [(0, Val.int 1)]) (by decide) (by decide)⟩

theorem C4_witness :
    ((OutlierRemover.mk cfgW none).fit XtrainW = .ok rFit0W ∧ XzW.WF ∧
      rFit0W.transform XzW none = .ok (XzEmptyW, none)) ∧
    ((∀ row ∈ XzEmptyW.rows,
        cellVal XzW.cols cfgW.group_by_column row.2 ∈
          colValues XtrainW cfgW.group_by_column) ∧
     (∀ row ∈ XzW.rows,
        cellVal XzW.cols cfgW.group_by_column row.2 ∉
            colValues XtrainW cfgW.group_by_column →
          row ∉ XzEmptyW.rows)) :=
  ⟨⟨by decide, by decide, by decide⟩,
   C4_unseen_group_rows_dropped (OutlierRemover.mk cfgW none) rFit0W XtrainW XzW none
     XzEmptyW none (by decide) (by decide) (by decide)⟩

/-! ## C3: empty-survivor handling in the composer -/

/-- C3: For every Full-Pipeline Composer whose classifier is fitted
(its learned `classes_` carry a dtype) and every raw input on which the
filter stage removes every row, `predict` returns the empty Series
typed by the classifier's learned label dtype, and does not raise. -/
theorem C3_empty_survivors_predict (m : FullPipelinePyFunc) (input : DataFrame)
    (dt : Dtype) (cs : List Val) (X' : DataFrame) (oy : Option Labels)
    (hcls : m.sklearn_pipeline.classifier.classes_ = some (dt, cs))
    (ht : m.outlier_remover.transform input none = .ok (X', oy))
    (hempty : X'.rows = []) :
    m.predict input = .ok ⟨dt, none, []⟩ := by
  unfold FullPipelinePyFunc.predict
  rw [ht]
  dsimp only
  rw [hempty, hcls]
  simp

theorem C3_witness :
    pyfW.sklearn_pipeline.classifier.classes_ = some (.int64, [Val.int 0, Val.int 1]) ∧
    pyfW.outlier_remover.transform XzW none = .ok (XzEmptyW, none) ∧
    XzEmptyW.rows = [] ∧
    pyfW.predict XzW = .ok ⟨.int64, none, []⟩ :=
  ⟨rfl, by decide, rfl,
   C3_empty_survivors_predict pyfW XzW .int64 [Val.int 0, Val.int 1] XzEmptyW none
     rfl (by decide) rfl⟩

/-! ## C5: state after a failed fit -/

/-- Validation either passes or raises its `SchemaError`. -/
theorem validateColumns_cases (cls : String) (df : DataFrame) (req : List ColName) :
    validateColumns cls df req = .ok () ∨
    validateColumns cls df req = .error (.schemaError cls (missingCols req df.cols)) := by
  unfold validateColumns
  split
  · exact Or.inl rfl
  · exact Or.inr rfl

/-- A failed cell cast is always the astype `ValueError`. -/
theorem castCell_error_valueError {v : Val} {e : PyErr}
    (h : castCell v = .error e) : ∃ m, e = .valueError m := by
  cases v with
  | int n => exact absurd h (by simp [castCell])
  | float q => exact absurd h (by simp [castCell])
  | na => exact absurd h (by simp [castCell])
  | str st =>
    revert h
    unfold castCell
    dsimp only
    cases parseFloat st with
    | none =>
      intro h
      simp at h
      exact ⟨_, h.symm⟩
    | some q => intro h; exact absurd h (by simp)

theorem castColumnRows_error_valueError :
    ∀ {i : ℕ} {rows : List (Nat × List Val)} {e : PyErr},
      castColumnRows i rows = .error e → ∃ m, e = .valueError m := by
  intro i rows
  induction rows with
  | nil => intro e h; exact absurd h (by simp [castColumnRows])
  | cons r rest ih =>
    intro e h
    unfold castColumnRows at h
    revert h
    cases hc : castCell (r.2.getD i .na) with
    | error e2 =>
      intro h
      simp at h
      subst h
      exact castCell_error_valueError hc
    | ok v =>
      dsimp only
      cases hrec : castColumnRows i rest with
      | error e2 =>
        intro h
        simp at h
        subst h
        exact ih hrec
      | ok rs => intro h; exact absurd h (by simp)

theorem castColumn_error_valueError {df : DataFrame} {c : ColName} {e : PyErr}
    (h : castColumn df c = .error e) : ∃ m, e = .valueError m := by
  revert h
  unfold castColumn
  cases df.cols.findIdx? (fun x => decide (x = c)) with
  | none => intro h; exact absurd h (by simp)
  | some i =>
    dsimp only
    cases hr : castColumnRows i df.rows with
    | error e2 =>
      intro h
      simp at h
      subst h
      exact castColumnRows_error_valueError hr
    | ok rs => intro h; exact absurd h (by simp)

/-- A failed conversion loop is always the astype `ValueError`. -/
theorem castColumns_error_valueError :
    ∀ {df : DataFrame} {cs : List ColName} {e : PyErr},
      castColumns df cs = .error e → ∃ m, e = .valueError m := by
  intro df cs
  induction cs generalizing df with
  | nil => intro e h; exact absurd h (by simp [castColumns])
  | cons c rest ih =>
    intro e h
    unfold castColumns at h
    revert h
    by_cases hc : c ∈ df.cols
    · rw [if_pos hc]
      cases hcc : castColumn df c with
      | error e2 =>
        intro h
        simp at h
        subst h
        exact castColumn_error_valueError hcc
      | ok df2 => intro h; exact ih h
    · rw [if_neg hc]
      intro h
      exact ih h

/-- The conversion loop leaves the frame untouched when every listed
column is absent. -/
theorem castColumns_skip_all :
    ∀ {df : DataFrame} {cs : List ColName},
      (∀ c ∈ cs, c ∉ df.cols) → castColumns df cs = .ok df := by
  intro df cs
  induction cs generalizing df with
  | nil => intro _; rfl
  | cons c rest ih =>
    intro habs
    unfold castColumns
    rw [if_neg (habs c (List.mem_cons_self c rest))]
    exact ih (fun x hx => habs x (List.mem_cons_of_mem c hx))

/-- No step transform ever raises the orchestrator's not-fitted
`RuntimeError`: the variants raise only schema, collision, key, type or
value errors. -/
theorem Transformer.transform_ne_runtimeError (t : Transformer) (df : DataFrame)
    (msg : String) : t.transform df ≠ .error (.runtimeError msg) := by
  intro h
  cases t with
  | intToFloatConverter c ctc =>
    simp only [Transformer.transform] at h
    split at h
    · simp at h
    · obtain ⟨m, hm⟩ := castColumns_error_valueError h
      exact absurd hm (by simp)
  | meanImputer a b =>
    simp only [Transformer.transform] at h
    simp at h
  | groupedAggregator a g ag ocs aggdf =>
    simp only [Transformer.transform] at h
    rcases validateColumns_cases "GroupedAggregator" df [g] with hv | hv <;>
      rw [hv] at h <;> dsimp only at h
    · split at h
      · simp at h
      · split at h <;> simp at h
    · simp at h
  | columnSubtractor a oc ca cb =>
    simp only [Transformer.transform] at h
    rcases validateColumns_cases "ColumnSubtractor" df a with hv | hv <;>
      rw [hv] at h <;> dsimp only at h
    · split at h
      · simp at h
      · split at h
        · simp at h
        · split at h <;> simp at h
    · simp at h
  | absoluteDifference a oc ca cb =>
    simp only [Transformer.transform] at h
    rcases validateColumns_cases "AbsoluteDifference" df a with hv | hv <;>
      rw [hv] at h <;> dsimp only at h
    · split at h
      · simp at h
      · split at h
        · simp at h
        · split at h <;> simp at h
    · simp at h
  | thresholdBinarizer ic oc th =>
    simp only [Transformer.transform] at h
    rcases validateColumns_cases "ThresholdBinarizer" df [ic] with hv | hv <;>
      rw [hv] at h <;> dsimp only at h
    · split at h <;> simp at h
    · simp at h

/-- Replaying any fitted sequence never raises the not-fitted
`RuntimeError` either. -/
theorem foldl_transform_ne_runtimeError (msg : String) :
    ∀ (ts : List Transformer) (X : DataFrame),
      ts.foldlM (fun df t => t.transform df) X ≠ .error (.runtimeError msg) := by
  intro ts
  induction ts with
  | nil => intro X h; exact absurd h (by simp [List.foldlM_nil, pure, Except.pure])
  | cons t rest ih =>
    intro X h
    rw [List.foldlM_cons] at h
    cases htr : t.transform X with
    | error e =>
      rw [htr] at h
      simp only [bind, Except.bind] at h
      simp only [Except.error.injEq] at h
      exact Transformer.transform_ne_runtimeError t X msg (by rw [htr, h])
    | ok X2 =>
      rw [htr] at h
      simp only [bind, Except.bind] at h
      exact ih X2 h

/-- C5 amended: Any step failure aborts the whole fit with the
error propagated, but the `fitted_steps_` attribute has already been
assigned — possibly to the partially fitted prefix — so after any fit
call (failed or not) the orchestrator is no longer in the unfitted
state; a subsequent `transform` raises `NotFittedError` exactly when no
fit call was ever started. -/
theorem C5_failed_fit_retains_partial_state (p : FeaturesPreprocessor)
    (X : DataFrame) :
    (p.fit X).1.fitted_steps ≠ none ∧
    (p.transform X =
        .error (.runtimeError
          "This preprocessor instance is not fitted yet. Call fit before transform.")
      ↔ p.fitted_steps = none) := by
  constructor
  · unfold FeaturesPreprocessor.fit
    cases hfs : fitSteps p.steps [] X with
    | mk ts r => simp
  · constructor
    · intro h
      cases hfit : p.fitted_steps with
      | none => rfl
      | some ts =>
        unfold FeaturesPreprocessor.transform at h
        rw [hfit] at h
        exact absurd h (foldl_transform_ne_runtimeError _ ts X)
    · intro h
      unfold FeaturesPreprocessor.transform
      rw [h]

/-- C5 counterexample: On `pC5` and `dfC5` the resolution
of the second step fails and fit aborts with that error — but the partially
fitted first step is retained, and a subsequent `transform` succeeds
instead of raising `NotFittedError`. -/
theorem C5_counterexample :
    (pC5.fit dfC5).2 = .error (.importError "Could not import class nosuch.Thing") ∧
    (pC5.fit dfC5).1.fitted_steps = some [.thresholdBinarizer "a" "b" 0] ∧
    (pC5.fit dfC5).1.transform dfC5 = .ok ⟨["a", "b"], [(0, [.int 5, .int 1])]⟩ := by
  refine ⟨by decide, by decide, by decide⟩

theorem C5_witness :
    (pC5.fit dfC5).1.fitted_steps ≠ none ∧
    (pC5.transform dfC5 =
        .error (.runtimeError
          "This preprocessor instance is not fitted yet. Call fit before transform.")
      ↔ pC5.fitted_steps = none) :=
  C5_failed_fit_retains_partial_state pC5 dfC5

/-! ## C6: metadata count and order -/

theorem fitSteps_ok_length :
    ∀ (cs : List PreprocessorStepConfig) (acc : List Transformer) (df : DataFrame),
      (fitSteps cs acc df).2 = .ok () →
      (fitSteps cs acc df).1.length = acc.length + cs.length := by
  intro cs
  induction cs with
  | nil => intro acc df _; simp [fitSteps]
  | cons c rest ih =>
    intro acc df h
    unfold fitSteps at h ⊢
    revert h
    cases hc : createTransformerFromConfig c with
    | error e => intro h; exact absurd h (by simp)
    | ok t =>
      dsimp only
      cases hf : t.fit df with
      | error e => intro h; exact absurd h (by simp)
      | ok tf =>
        dsimp only
        cases htr : tf.transform df with
        | error e => intro h; exact absurd h (by simp)
        | ok df2 =>
          intro h
          rw [ih (acc ++ [tf]) df2 h]
          simp [List.length_append]
          omega

theorem zip_map_fst_fun {α β γ : Type} (g : α → γ) :
    ∀ (l₁ : List α) (l₂ : List β), l₁.length = l₂.length →
      (l₁.zip l₂).map (fun pr => g pr.1) = l₁.map g := by
  intro l₁
  induction l₁ with
  | nil => intro l₂ _; rfl
  | cons a t ih =>
    intro l₂ h
    cases l₂ with
    | nil => exact absurd h (by simp)
    | cons b t2 =>
      simp only [List.zip_cons_cons, List.map_cons]
      rw [ih t2 (by simpa using h)]

/-- The orchestrator `fit` written as the explicit pair (by structure eta). -/
theorem FeaturesPreprocessor.fit_eq (p : FeaturesPreprocessor) (X : DataFrame) :
    p.fit X = ({ p with fitted_steps := some (fitSteps p.steps [] X).1 },
               (fitSteps p.steps [] X).2) := rfl

/-- C6 amended: `get_metadata` raises `NotFittedError` before any
fit attempt; after a *successful* fit of a StepConfig list of length
`n ≥ 1` it returns exactly `n` entries carrying the name, locator
and params of the configs, in the StepConfig order.  (For `n = 0` a successful
fit still leaves `get_metadata` raising, and after a *failed* fit it
can return entries for the retained prefix — see the counterexample.) -/
theorem C6_metadata_after_fit (p : FeaturesPreprocessor) (X : DataFrame) :
    (p.fitted_steps = none →
      p.get_metadata =
        .error (.runtimeError "Pipeline has not been fitted. Call get_metadata after fit.")) ∧
    ((p.fit X).2 = .ok () → p.steps ≠ [] →
      Except.map List.length ((p.fit X).1.get_metadata) = .ok p.steps.length ∧
      Except.map (List.map (fun md => (md.name, md.class_path, md.params)))
          ((p.fit X).1.get_metadata) =
        .ok (p.steps.map (fun c => (c.name, c.class_path, c.params)))) := by
  constructor
  · intro h
    unfold FeaturesPreprocessor.get_metadata
    rw [h]
  · intro hok hne
    rw [FeaturesPreprocessor.fit_eq] at hok ⊢
    dsimp only at hok ⊢
    have hlen : (fitSteps p.steps [] X).1.length = p.steps.length := by
      have h2 := fitSteps_ok_length p.steps [] X hok
      simpa using h2
    have hts : ¬(fitSteps p.steps [] X).1.isEmpty = true := by
      rw [List.isEmpty_iff]
      intro h0
      rw [h0] at hlen
      exact hne (List.length_eq_zero.1 hlen.symm)
    unfold FeaturesPreprocessor.get_metadata
    dsimp only
    rw [if_neg hts]
    constructor
    · simp only [Except.map, List.length_map, List.length_zip, hlen,
        Nat.min_self]
    · simp only [Except.map, List.map_map]
      rw [show ((fun md : StepMetadataConfig => (md.name, md.class_path, md.params)) ∘
          (fun ct : PreprocessorStepConfig × Transformer =>
            ({ name := ct.1.name, class_path := ct.1.class_path, params := ct.1.params,
               source_hash := classSourceHash ct.2.tclass } : StepMetadataConfig))) =
          fun ct : PreprocessorStepConfig × Transformer =>
            (fun c : PreprocessorStepConfig => (c.name, c.class_path, c.params)) ct.1
        from rfl]
      rw [zip_map_fst_fun (fun c : PreprocessorStepConfig =>
        (c.name, c.class_path, c.params)) p.steps (fitSteps p.steps [] X).1 hlen.symm]

/-- C6 counterexample: Fitting an empty StepConfig list succeeds,
yet `get_metadata` raises instead of returning zero entries. -/
theorem C6_counterexample :
    (pEmptyW.fit dfC5).2 = .ok () ∧
    (pEmptyW.fit dfC5).1.get_metadata =
      .error (.runtimeError "Pipeline has not been fitted. Call get_metadata after fit.") :=
  ⟨rfl, rfl⟩

theorem C6_witness :
    ((pC6ok.fit dfC5).2 = .ok () ∧ pC6ok.steps ≠ []) ∧
    (Except.map List.length ((pC6ok.fit dfC5).1.get_metadata) = .ok pC6ok.steps.length ∧
     Except.map (List.map (fun md => (md.name, md.class_path, md.params)))
        ((pC6ok.fit dfC5).1.get_metadata) =
      .ok (pC6ok.steps.map (fun c => (c.name, c.class_path, c.params)))) :=
  ⟨⟨by decide, by decide⟩,
   (C6_metadata_after_fit pC6ok dfC5).2 (by decide) (by decide)⟩

/-! ## C7: collision guard -/

/-- C7 amended: For each column-producing variant and every table
that contains the transform-validated columns of the variant and already
contains an output column name, `transform` raises `CollisionError`
(the embedding is pure, so the input frame is never modified).  When a
validated column is missing, the `SchemaError` of the validation takes
precedence over the collision — see the counterexample. -/
theorem C7_collision_guard (df : DataFrame) (ics : List ColName) (g : ColName)
    (ags : List (ColName × List String)) (ocs : List ColName)
    (aggdf : Option (List (Val × List Val))) (oc ca cb ic : ColName) (th : ℚ) :
    (missingCols [g] df.cols = [] →
      ocs.any (fun c => decide (c ∈ df.cols)) = true →
      (Transformer.groupedAggregator ics g ags ocs aggdf).transform df =
        .error (.collisionError "GroupedAggregator" ocs)) ∧
    (missingCols ics df.cols = [] → oc ∈ df.cols →
      (Transformer.columnSubtractor ics oc ca cb).transform df =
        .error (.collisionError "ColumnSubtractor" [oc])) ∧
    (missingCols ics df.cols = [] → oc ∈ df.cols →
      (Transformer.absoluteDifference ics oc ca cb).transform df =
        .error (.collisionError "AbsoluteDifference" [oc])) ∧
    (missingCols [ic] df.cols = [] → oc ∈ df.cols →
      (Transformer.thresholdBinarizer ic oc th).transform df =
        .error (.collisionError "ThresholdBinarizer" [oc])) := by
  refine ⟨fun h1 h2 => ?_, fun h1 h2 => ?_, fun h1 h2 => ?_, fun h1 h2 => ?_⟩
  · simp only [Transformer.transform]
    have hv : validateColumns "GroupedAggregator" df [g] = .ok () := by
      unfold validateColumns
      rw [if_pos h1]
    rw [hv]
    dsimp only
    rw [if_pos h2]
  · simp only [Transformer.transform]
    have hv : validateColumns "ColumnSubtractor" df ics = .ok () := by
      unfold validateColumns
      rw [if_pos h1]
    rw [hv]
    dsimp only
    rw [if_pos h2]
  · simp only [Transformer.transform]
    have hv : validateColumns "AbsoluteDifference" df ics = .ok () := by
      unfold validateColumns
      rw [if_pos h1]
    rw [hv]
    dsimp only
    rw [if_pos h2]
  · simp only [Transformer.transform]
    have hv : validateColumns "ThresholdBinarizer" df [ic] = .ok () := by
      unfold validateColumns
      rw [if_pos h1]
    rw [hv]
    dsimp only
    rw [if_pos h2]

/-- C7 counterexample: A table that already contains the
binarizer's output column "b" but lacks its input column "a": transform
raises the schema `ValueError` naming "a", not the collision error the
claim promises for every such table. -/
theorem C7_counterexample :
    "b" ∈ dfOnlyB.cols ∧
    (Transformer.thresholdBinarizer "a" "b" 0).transform dfOnlyB =
      .error (.schemaError "ThresholdBinarizer" ["a"]) :=
  ⟨by decide, by decide⟩

theorem C7_witness :
    (missingCols ["a"] df7.cols = [] ∧
     (["b"].any (fun c => decide (c ∈ df7.cols))) = true ∧ "b" ∈ df7.cols) ∧
    (Transformer.groupedAggregator ["a"] "a" [] ["b"] none).transform df7 =
      .error (.collisionError "GroupedAggregator" ["b"]) ∧
    (Transformer.columnSubtractor ["a"] "b" "a" "a").transform df7 =
      .error (.collisionError "ColumnSubtractor" ["b"]) ∧
    (Transformer.absoluteDifference ["a"] "b" "a" "a").transform df7 =
      .error (.collisionError "AbsoluteDifference" ["b"]) ∧
    (Transformer.thresholdBinarizer "a" "b" 0).transform df7 =
      .error (.collisionError "ThresholdBinarizer" ["b"]) :=
  ⟨⟨by decide, by decide, by decide⟩,
   (C7_collision_guard df7 ["a"] "a" [] ["b"] none "b" "a" "a" "a" 0).1
     (by decide) (by decide),
   (C7_collision_guard df7 ["a"] "a" [] ["b"] none "b" "a" "a" "a" 0).2.1
     (by decide) (by decide),
   (C7_collision_guard df7 ["a"] "a" [] ["b"] none "b" "a" "a" "a" 0).2.2.1
     (by decide) (by decide),
   (C7_collision_guard df7 ["a"] "a" [] ["b"] none "b" "a" "a" "a" 0).2.2.2
     (by decide) (by decide)⟩

/-! ## C8: schema validation -/

/-- C8 amended: The `fit` of every variant validates its required
columns and fails with a `SchemaError` naming the missing ones (the
type-cast variant only when a nonempty explicit column list was
configured — otherwise it auto-detects and requires nothing), and
`transform` does the same for grouped-aggregate (its group key),
arithmetic-difference and absolute-difference (their declared input
columns) and threshold-binarizer (its input column); but the type-cast
and mean-fill `transform`s perform no column validation: the type-cast
transform never raises a `SchemaError`, silently skips absent columns
and returns the input unchanged when every listed column is absent
(astype itself can still raise its `ValueError` on a present
unconvertible column), and the mean-fill transform never raises at
all. -/
theorem C8_schema_validation (df : DataFrame) (c0 : ColName) (cs0 : List ColName)
    (ctc : List ColName) (ics : List ColName) (imp : List (ColName × Val))
    (g : ColName) (ags : List (ColName × List String)) (ocs : List ColName)
    (aggdf : Option (List (Val × List Val))) (oc ca cb ic : ColName) (th : ℚ) :
    (missingCols (c0 :: cs0) df.cols ≠ [] →
      (Transformer.intToFloatConverter (some (c0 :: cs0)) ctc).fit df =
        .error (.schemaError "IntToFloatConverter" (missingCols (c0 :: cs0) df.cols))) ∧
    (missingCols ics df.cols ≠ [] →
      (Transformer.meanImputer ics imp).fit df =
        .error (.schemaError "MeanImputer" (missingCols ics df.cols))) ∧
    (missingCols (ics ++ [g]) df.cols ≠ [] →
      (Transformer.groupedAggregator ics g ags ocs aggdf).fit df =
        .error (.schemaError "GroupedAggregator" (missingCols (ics ++ [g]) df.cols))) ∧
    (missingCols ics df.cols ≠ [] →
      (Transformer.columnSubtractor ics oc ca cb).fit df =
        .error (.schemaError "ColumnSubtractor" (missingCols ics df.cols))) ∧
    (missingCols ics df.cols ≠ [] →
      (Transformer.absoluteDifference ics oc ca cb).fit df =
        .error (.schemaError "AbsoluteDifference" (missingCols ics df.cols))) ∧
    (missingCols [ic] df.cols ≠ [] →
      (Transformer.thresholdBinarizer ic oc th).fit df =
        .error (.schemaError "ThresholdBinarizer" (missingCols [ic] df.cols))) ∧
    (missingCols [g] df.cols ≠ [] →
      (Transformer.groupedAggregator ics g ags ocs aggdf).transform df =
        .error (.schemaError "GroupedAggregator" (missingCols [g] df.cols))) ∧
    (missingCols ics df.cols ≠ [] →
      (Transformer.columnSubtractor ics oc ca cb).transform df =
        .error (.schemaError "ColumnSubtractor" (missingCols ics df.cols))) ∧
    (missingCols ics df.cols ≠ [] →
      (Transformer.absoluteDifference ics oc ca cb).transform df =
        .error (.schemaError "AbsoluteDifference" (missingCols ics df.cols))) ∧
    (missingCols [ic] df.cols ≠ [] →
      (Transformer.thresholdBinarizer ic oc th).transform df =
        .error (.schemaError "ThresholdBinarizer" (missingCols [ic] df.cols))) ∧
    (∀ cls ms, (Transformer.intToFloatConverter (some cs0) ctc).transform df ≠
      .error (.schemaError cls ms)) ∧
    ((∀ c ∈ ctc, c ∉ df.cols) →
      (Transformer.intToFloatConverter (some cs0) ctc).transform df = .ok df) ∧
    (∀ e, (Transformer.meanImputer ics imp).transform df ≠ .error e) := by
  have hv : ∀ (cls : String) (req : List ColName), missingCols req df.cols ≠ [] →
      validateColumns cls df req =
        .error (.schemaError cls (missingCols req df.cols)) := by
    intro cls req h
    unfold validateColumns
    rw [if_neg h]
  refine ⟨?_, ?_, ?_, ?_, ?_, ?_, ?_, ?_, ?_, ?_, ?_, ?_, ?_⟩
  · intro h
    simp only [Transformer.fit]
    rw [hv _ _ h]
  · intro h
    simp only [Transformer.fit]
    rw [hv _ _ h]
  · intro h
    simp only [Transformer.fit]
    rw [hv _ _ h]
  · intro h
    simp only [Transformer.fit]
    rw [hv _ _ h]
  · intro h
    simp only [Transformer.fit]
    rw [hv _ _ h]
  · intro h
    simp only [Transformer.fit]
    rw [hv _ _ h]
  · intro h
    simp only [Transformer.transform]
    rw [hv _ _ h]
  · intro h
    simp only [Transformer.transform]
    rw [hv _ _ h]
  · intro h
    simp only [Transformer.transform]
    rw [hv _ _ h]
  · intro h
    simp only [Transformer.transform]
    rw [hv _ _ h]
  · intro cls ms h
    simp only [Transformer.transform] at h
    split at h
    · simp at h
    · obtain ⟨m, hm⟩ := castColumns_error_valueError h
      exact absurd hm (by simp)
  · intro habs
    simp only [Transformer.transform]
    split
    · rfl
    · exact castColumns_skip_all habs
  · intro e h
    simp only [Transformer.transform] at h
    simp at h

/-- C8 counterexample: The mean-fill and type-cast `transform`
methods silently succeed on a table missing their declared
required column "a" — no `SchemaError` is raised. -/
theorem C8_counterexample :
    missingCols ["a"] dfOnlyB.cols = ["a"] ∧
    (Transformer.meanImputer ["a"] [("a", Val.float 1)]).transform dfOnlyB =
      .ok dfOnlyB ∧
    (Transformer.intToFloatConverter (some ["a"]) ["a"]).transform dfOnlyB =
      .ok dfOnlyB :=
  ⟨by decide, by decide, by decide⟩

theorem C8_witness :
    missingCols ["a"] dfOnlyB.cols ≠ [] ∧
    (Transformer.intToFloatConverter (some ["a"]) ["a"]).fit dfOnlyB =
      .error (.schemaError "IntToFloatConverter" (missingCols ["a"] dfOnlyB.cols)) ∧
    (Transformer.meanImputer ["a"] [("a", Val.float 1)]).fit dfOnlyB =
      .error (.schemaError "MeanImputer" (missingCols ["a"] dfOnlyB.cols)) ∧
    (Transformer.groupedAggregator ["a"] "g" [] ["x"] none).fit dfOnlyB =
      .error (.schemaError "GroupedAggregator" (missingCols (["a"] ++ ["g"]) dfOnlyB.cols)) ∧
    (Transformer.columnSubtractor ["a"] "o" "p" "q").fit dfOnlyB =
      .error (.schemaError "ColumnSubtractor" (missingCols ["a"] dfOnlyB.cols)) ∧
    (Transformer.absoluteDifference ["a"] "o" "p" "q").fit dfOnlyB =
      .error (.schemaError "AbsoluteDifference" (missingCols ["a"] dfOnlyB.cols)) ∧
    (Transformer.thresholdBinarizer "i" "o" 0).fit dfOnlyB =
      .error (.schemaError "ThresholdBinarizer" (missingCols ["i"] dfOnlyB.cols)) ∧
    (Transformer.groupedAggregator ["a"] "g" [] ["x"] none).transform dfOnlyB =
      .error (.schemaError "GroupedAggregator" (missingCols ["g"] dfOnlyB.cols)) ∧
    (Transformer.columnSubtractor ["a"] "o" "p" "q").transform dfOnlyB =
      .error (.schemaError "ColumnSubtractor" (missingCols ["a"] dfOnlyB.cols)) ∧
    (Transformer.absoluteDifference ["a"] "o" "p" "q").transform dfOnlyB =
      .error (.schemaError "AbsoluteDifference" (missingCols ["a"] dfOnlyB.cols)) ∧
    (Transformer.thresholdBinarizer "i" "o" 0).transform dfOnlyB =
      .error (.schemaError "ThresholdBinarizer" (missingCols ["i"] dfOnlyB.cols)) ∧
    (∀ cls ms, (Transformer.intToFloatConverter (some []) ["a"]).transform dfOnlyB ≠
      .error (.schemaError cls ms)) ∧
    ((∀ c ∈ (["a"] : List ColName), c ∉ dfOnlyB.cols) ∧
     (Transformer.intToFloatConverter (some []) ["a"]).transform dfOnlyB = .ok dfOnlyB) ∧
    (∀ e, (Transformer.meanImputer ["a"] [("a", Val.float 1)]).transform dfOnlyB ≠ .error e) := by
  have hmain := C8_schema_validation dfOnlyB "a" [] ["a"] ["a"]
    [("a", Val.float 1)] "g" [] ["x"] none "o" "p" "q" "i" 0
  exact ⟨by decide,
    hmain.1 (by decide), hmain.2.1 (by decide), hmain.2.2.1 (by decide),
    hmain.2.2.2.1 (by decide), hmain.2.2.2.2.1 (by decide),
    hmain.2.2.2.2.2.1 (by decide), hmain.2.2.2.2.2.2.1 (by decide),
    hmain.2.2.2.2.2.2.2.1 (by decide), hmain.2.2.2.2.2.2.2.2.1 (by decide),
    hmain.2.2.2.2.2.2.2.2.2.1 (by decide),
    hmain.2.2.2.2.2.2.2.2.2.2.1,
    ⟨by decide, hmain.2.2.2.2.2.2.2.2.2.2.2.1 (by decide)⟩,
    hmain.2.2.2.2.2.2.2.2.2.2.2.2⟩

/-! ## C9: the dynamic step resolver -/

theorem splitDotChars_no_dot :
    ∀ {cs : List Char}, ('.' : Char) ∉ cs → splitDotChars cs = [cs] := by
  intro cs
  induction cs with
  | nil => intro _; rfl
  | cons c rest ih =>
    intro h
    simp only [List.mem_cons, not_or] at h
    unfold splitDotChars
    rw [ih h.2]
    dsimp only
    rw [if_neg (fun he => h.1 he.symm)]

theorem rsplitDot_no_dot {s : String} (h : containsDot s = false) :
    rsplitDot s = none := by
  unfold containsDot at h
  have hmem : ('.' : Char) ∉ s.data := by simpa using h
  unfold rsplitDot
  rw [splitDotChars_no_dot hmem]
  rfl

theorem expandClassPath_short {cp : String} (h1 : containsDot cp = true)
    (h2 : startsWith DEFAULT_MODULE_PREFIX cp = false)
    (h3 : headSegment cp ≠ "src") :
    expandClassPath cp = DEFAULT_MODULE_PREFIX ++ cp := by
  unfold expandClassPath
  rw [if_pos]
  rw [h1, h2]
  simp [h3]

theorem expandClassPath_asis {cp : String}
    (h : startsWith DEFAULT_MODULE_PREFIX cp = true ∨ headSegment cp = "src"
      ∨ containsDot cp = false) :
    expandClassPath cp = cp := by
  unfold expandClassPath
  rw [if_neg]
  rcases h with h | h | h <;> simp [h]

theorem startsWith_self_append (p q : String) : startsWith p (p ++ q) = true := by
  unfold startsWith
  rw [String.data_append, List.isPrefixOf_iff_prefix]
  exact List.prefix_append p.data q.data

/-- The original locator echoed in the wrapped `ImportError` is the one
thing the post-expansion resolution depends on it for: success results
agree for any two originals. -/
theorem resolveExpanded_ok_iff {path o1 o2 : String} {ps : Params}
    {t : Transformer} :
    resolveExpanded path o1 ps = .ok t ↔ resolveExpanded path o2 ps = .ok t := by
  unfold resolveExpanded
  cases rsplitDot path with
  | none => simp
  | some mc =>
    obtain ⟨mp, cn⟩ := mc
    dsimp only
    cases importModule mp with
    | none => simp
    | some classes =>
      dsimp only
      cases classes.find? (fun p => decide (p.1 = cn)) with
      | none => simp
      | some pr => exact Iff.rfl

/-- C9 amended: Expansion is universal over locators: every locator
containing a namespace separator, not already under the default
namespace and whose first segment is not the root namespace `src`, is
expanded against the default namespace and resolves to exactly the
same constructed instance as its fully qualified form; every locator
already under the default namespace or rooted at `src` is used as-is;
every separator-free locator is not expanded and always fails with the
wrapped `ImportError` (the spec ResolutionError) naming the original
locator; every location-failure path — a missing separator, a module
that does not import, a class the module does not export — produces
that same wrapped error; but when the located class cannot be
constructed with the supplied parameters, the raw construction
`TypeError` propagates unwrapped instead of a ResolutionError. -/
theorem C9_resolver (nm : String) (ps : Params) (cp : String) :
    (containsDot cp = true → startsWith DEFAULT_MODULE_PREFIX cp = false →
      headSegment cp ≠ "src" →
      createTransformerFromConfig ⟨nm, cp, ps⟩ =
        resolveExpanded (DEFAULT_MODULE_PREFIX ++ cp) cp ps ∧
      (∀ t, createTransformerFromConfig ⟨nm, cp, ps⟩ = .ok t ↔
        createTransformerFromConfig ⟨nm, DEFAULT_MODULE_PREFIX ++ cp, ps⟩ = .ok t)) ∧
    (startsWith DEFAULT_MODULE_PREFIX cp = true ∨ headSegment cp = "src" →
      createTransformerFromConfig ⟨nm, cp, ps⟩ = resolveExpanded cp cp ps) ∧
    (containsDot cp = false →
      createTransformerFromConfig ⟨nm, cp, ps⟩ =
        .error (.importError ("Could not import class " ++ cp))) ∧
    (∀ mp cn, rsplitDot (expandClassPath cp) = some (mp, cn) →
      importModule mp = none →
      createTransformerFromConfig ⟨nm, cp, ps⟩ =
        .error (.importError ("Could not import class " ++ cp))) ∧
    (∀ mp cn classes, rsplitDot (expandClassPath cp) = some (mp, cn) →
      importModule mp = some classes →
      classes.find? (fun q => decide (q.1 = cn)) = none →
      createTransformerFromConfig ⟨nm, cp, ps⟩ =
        .error (.importError ("Could not import class " ++ cp))) ∧
    (∀ mp cn classes pr e, rsplitDot (expandClassPath cp) = some (mp, cn) →
      importModule mp = some classes →
      classes.find? (fun q => decide (q.1 = cn)) = some pr →
      mkTransformer pr.2 ps = .error e →
      createTransformerFromConfig ⟨nm, cp, ps⟩ = .error e) := by
  refine ⟨?_, ?_, ?_, ?_, ?_, ?_⟩
  · intro h1 h2 h3
    constructor
    · unfold createTransformerFromConfig
      rw [expandClassPath_short h1 h2 h3]
    · intro t
      unfold createTransformerFromConfig
      rw [expandClassPath_short h1 h2 h3,
        expandClassPath_asis (Or.inl (startsWith_self_append DEFAULT_MODULE_PREFIX cp))]
      exact resolveExpanded_ok_iff
  · intro h
    unfold createTransformerFromConfig
    rw [expandClassPath_asis (by tauto)]
  · intro h
    unfold createTransformerFromConfig
    rw [expandClassPath_asis (Or.inr (Or.inr h))]
    unfold resolveExpanded
    rw [rsplitDot_no_dot h]
  · intro mp cn hsplit hmod
    unfold createTransformerFromConfig resolveExpanded
    rw [hsplit]
    dsimp only
    rw [hmod]
  · intro mp cn classes hsplit hmod hfind
    unfold createTransformerFromConfig resolveExpanded
    rw [hsplit]
    dsimp only
    rw [hmod]
    dsimp only
    rw [hfind]
  · intro mp cn classes pr e hsplit hmod hfind hmk
    unfold createTransformerFromConfig resolveExpanded
    rw [hsplit]
    dsimp only
    rw [hmod]
    dsimp only
    rw [hfind]
    dsimp only
    exact hmk

/-- C9 counterexample: A locator naming a real class with an
unusable parameter set fails with a raw construction `TypeError`, not
the resolver's `ImportError`/`ResolutionError` (contrast the
location-failure cases, which do produce it). -/
theorem C9_counterexample :
    createTransformerFromConfig
        ⟨"impute", "feature_store.MeanImputer", [("bogus", .s "x")]⟩ =
      .error (.typeError "MeanImputer: unexpected keyword argument") ∧
    createTransformerFromConfig ⟨"impute", "feature_store.Nope", []⟩ =
      .error (.importError "Could not import class feature_store.Nope") ∧
    createTransformerFromConfig ⟨"impute", "MeanImputer", []⟩ =
      .error (.importError "Could not import class MeanImputer") :=
  ⟨by decide, by decide, by decide⟩

theorem C9_witness :
    (createTransformerFromConfig
        ⟨"impute", "feature_store.MeanImputer", [("input_cols", PVal.ls ["a"])]⟩ =
      resolveExpanded (DEFAULT_MODULE_PREFIX ++ "feature_store.MeanImputer")
        "feature_store.MeanImputer" [("input_cols", PVal.ls ["a"])] ∧
     (∀ t, createTransformerFromConfig
        ⟨"impute", "feature_store.MeanImputer", [("input_cols", PVal.ls ["a"])]⟩ =
          .ok t ↔
       createTransformerFromConfig
        ⟨"impute", DEFAULT_MODULE_PREFIX ++ "feature_store.MeanImputer",
         [("input_cols", PVal.ls ["a"])]⟩ = .ok t)) ∧
    createTransformerFromConfig
        ⟨"impute", "src.data.preprocessor.feature_store.MeanImputer",
         [("input_cols", PVal.ls ["a"])]⟩ =
      resolveExpanded "src.data.preprocessor.feature_store.MeanImputer"
        "src.data.preprocessor.feature_store.MeanImputer"
        [("input_cols", PVal.ls ["a"])] ∧
    createTransformerFromConfig
        ⟨"impute", "MeanImputer", [("input_cols", PVal.ls ["a"])]⟩ =
      .error (.importError ("Could not import class " ++ "MeanImputer")) ∧
    createTransformerFromConfig ⟨"impute", "nosuch.Thing", []⟩ =
      .error (.importError ("Could not import class " ++ "nosuch.Thing")) ∧
    createTransformerFromConfig ⟨"impute", "feature_store.Nope", []⟩ =
      .error (.importError ("Could not import class " ++ "feature_store.Nope")) ∧
    createTransformerFromConfig
        ⟨"impute", "feature_store.MeanImputer", [("bogus", PVal.s "x")]⟩ =
      .error (.typeError "MeanImputer: unexpected keyword argument") :=
  ⟨(C9_resolver "impute" [("input_cols", PVal.ls ["a"])]
      "feature_store.MeanImputer").1 (by decide) (by decide) (by decide),
   (C9_resolver "impute" [("input_cols", PVal.ls ["a"])]
      "src.data.preprocessor.feature_store.MeanImputer").2.1 (Or.inr (by decide)),
   (C9_resolver "impute" [("input_cols", PVal.ls ["a"])]
      "MeanImputer").2.2.1 (by decide),
   (C9_resolver "impute" [] "nosuch.Thing").2.2.2.1
      "src.data.preprocessor.nosuch" "Thing" (by decide) (by decide),
   (C9_resolver "impute" [] "feature_store.Nope").2.2.2.2.1
      "src.data.preprocessor.feature_store" "Nope"
      [("IntToFloatConverter", .intToFloatConverter),
       ("MeanImputer", .meanImputer),
       ("GroupedAggregator", .groupedAggregator),
       ("ColumnSubtractor", .columnSubtractor),
       ("AbsoluteDifference", .absoluteDifference),
       ("ThresholdBinarizer", .thresholdBinarizer)]
      (by decide) (by decide) (by decide),
   (C9_resolver "impute" [("bogus", PVal.s "x")]
      "feature_store.MeanImputer").2.2.2.2.2
      "src.data.preprocessor.feature_store" "MeanImputer"
      [("IntToFloatConverter", .intToFloatConverter),
       ("MeanImputer", .meanImputer),
       ("GroupedAggregator", .groupedAggregator),
       ("ColumnSubtractor", .columnSubtractor),
       ("AbsoluteDifference", .absoluteDifference),
       ("ThresholdBinarizer", .thresholdBinarizer)]
      ("MeanImputer", .meanImputer)
      (.typeError "MeanImputer: unexpected keyword argument")
      (by decide) (by decide) (by decide) (by decide)⟩

end MLOps
